import Mathlib

/-!
Verification development for the pbix-analyzer repository: a shallow embedding of
the metadata-extraction and document-generation pipeline found in `app.py`,
`app2.py`, `app3.py` and `app_adv.py`, together with theorems settling the frozen
claims about that pipeline.

Modelling conventions:
- Python dictionaries whose keys are probed with `.get(key, default)` are embedded
  as association lists `Record = List (String × String)` (keys are assumed distinct,
  as they are in every dictionary the source constructs).
- Python dictionaries of fixed, code-known shape are embedded as structures.
- A value that may be absent (`None`, or a missing attribute) is an `Option`.
- Code that can raise is embedded in `Except String`; a `.error` value models an
  uncaught Python exception propagating out of the function.
- Word documents are modelled as the list of elements added to them (`DocElem`),
  ReportLab canvas output as the list of draw operations (`PdfOp`), and ReportLab
  platypus stories as lists of `PdfElem`.  Font-selection calls, colours and table
  styles carry no information relevant to any claim and are not recorded.
- External library calls (the PBIXRay analyzer's accessors, `doc.build`,
  `pandas.DataFrame.to_markdown`) are parameters of the embedding.
-/

/-- A Python dict with string keys and string values, in insertion order. -/
abbrev Record := List (String × String)

/-- Key lookup in a `Record` (keys assumed distinct, as in a Python dict). -/
def rlookup : Record → String → Option String
  | [], _ => none
  | (k, v) :: r, key => if k == key then some v else rlookup r key

/-- Python `d.get(key, default)`. -/
def dget (r : Record) (k d : String) : String :=
  (rlookup r k).getD d

/-- Python truthiness of an optional string (absent or empty string is falsy). -/
def truthyOpt : Option String → Bool
  | some s => s != ""
  | none => false

/-- Python `s.strip()`: leading and trailing whitespace removed. -/
def pyStrip (s : String) : String :=
  String.mk (((s.data.dropWhile Char.isWhitespace).reverse.dropWhile Char.isWhitespace).reverse)

/-- Python `str()` of a boolean. -/
def pyBool (b : Bool) : String :=
  if b then "True" else "False"

/-- An element added to a python-docx `Document`. -/
inductive DocElem where
  | heading (text : String) (level : Nat)
  | par (text : String)
  | table (rows : List (List String))
deriving DecidableEq, Repr

/-- A drawing operation on a ReportLab `canvas.Canvas`.  The source of
`app_adv.generate_pdf_doc` only ever calls `drawString`; `newPage` is the
operation a page break would emit (`canvas.showPage`), included so that the
absence of page breaks is expressible. -/
inductive PdfOp where
  | drawString (x y : Int) (text : String)
  | newPage
deriving DecidableEq, Repr

/-- A ReportLab platypus flowable appended to the `story` in `app2.generate_documentation`. -/
inductive PdfElem where
  | par (text style : String)
  | spacer (w h : Nat)
  | table (rows : List (List String))
deriving DecidableEq, Repr

/-! ## app_adv.py: report data model

`main` builds `report_data` from the PBIXRay accessors: `metadata` is treated by
the renderers as a dict (`.items()`), `schema` as a list of table dicts, and the
five remaining sections as pandas DataFrames probed with `is not None` /
`.empty` / `.to_dict('records')`.  A DataFrame is embedded as its list of
records. -/

/-- A column entry of a schema table in `app_adv.py` (`column.get('name')`,
`column.get('dataType')`). -/
structure SCol where
  name : Option String
  dataType : Option String
deriving DecidableEq, Repr

/-- A table entry of the schema section in `app_adv.py`. -/
structure STable where
  name : Option String
  columns : Option (List SCol)
deriving DecidableEq, Repr

/-- The `report_data` dictionary assembled by `app_adv.main`. -/
structure ReportData where
  metadata : Option Record
  schema : Option (List STable)
  relationships : Option (List Record)
  power_query : Option (List Record)
  m_parameters : Option (List Record)
  dax_tables : Option (List Record)
  dax_measures : Option (List Record)
deriving DecidableEq, Repr

/-- Python truthiness of `report_data.get("metadata")` (a dict: truthy iff present and non-empty). -/
def dictTruthy (o : Option Record) : Bool :=
  match o with
  | some m => !m.isEmpty
  | none => false

/-- Python truthiness of `report_data.get("schema")` (a list: truthy iff present and non-empty). -/
def listTruthy (o : Option (List STable)) : Bool :=
  match o with
  | some l => !l.isEmpty
  | none => false

/-- The check `report_data.get(k) is not None and not report_data.get(k).empty`
applied to a DataFrame section. -/
def framePresent (o : Option (List Record)) : Bool :=
  match o with
  | some f => !f.isEmpty
  | none => false

/-- Truthiness of `table.get("columns")` in `app_adv.generate_word_doc`. -/
def colsTruthy (o : Option (List SCol)) : Bool :=
  match o with
  | some l => !l.isEmpty
  | none => false

/-! ## app_adv.py: generate_word_doc

One definition per section, each returning the section's heading followed by its
body, exactly in the order `generate_word_doc` adds elements to the document. -/

/-- Metadata section of `app_adv.generate_word_doc`. -/
def advWordMetadata (rd : ReportData) : List DocElem :=
  DocElem.heading "Metadata" 1 ::
  (if dictTruthy rd.metadata then
     (rd.metadata.getD []).map (fun kv => DocElem.par (kv.1 ++ ": " ++ kv.2))
   else [DocElem.par "No metadata available."])

/-- Rendering of one schema table in `app_adv.generate_word_doc`. -/
def advWordSchemaTable (t : STable) : List DocElem :=
  DocElem.heading ("Table: " ++ t.name.getD "N/A") 2 ::
  (if colsTruthy t.columns then
     DocElem.par "Columns:" ::
       (t.columns.getD []).map (fun c =>
         DocElem.par ("- " ++ c.name.getD "N/A" ++ " (" ++ c.dataType.getD "N/A" ++ ")"))
   else [DocElem.par "No columns found for this table."])

/-- Schema section of `app_adv.generate_word_doc`. -/
def advWordSchema (rd : ReportData) : List DocElem :=
  DocElem.heading "Schema" 1 ::
  (if listTruthy rd.schema then
     (rd.schema.getD []).flatMap advWordSchemaTable
   else [DocElem.par "No schema information available."])

/-- Relationships section of `app_adv.generate_word_doc`. -/
def advWordRelationships (rd : ReportData) : List DocElem :=
  DocElem.heading "Relationships" 1 ::
  (if framePresent rd.relationships then
     (rd.relationships.getD []).map (fun rel =>
       DocElem.par ("From Table: " ++ dget rel "fromTable" "N/A"
         ++ ", From Column: " ++ dget rel "fromColumn" "N/A"
         ++ ", To Table: " ++ dget rel "toTable" "N/A"
         ++ ", To Column: " ++ dget rel "toColumn" "N/A"))
   else [DocElem.par "No relationships available."])

/-- Power Query section of `app_adv.generate_word_doc`. -/
def advWordPowerQuery (rd : ReportData) : List DocElem :=
  DocElem.heading "Power Query Code" 1 ::
  (if framePresent rd.power_query then
     (rd.power_query.getD []).flatMap (fun pq =>
       DocElem.par ("Name: " ++ dget pq "name" "N/A") ::
       (if truthyOpt (rlookup pq "expression") then
          [DocElem.par "Expression:", DocElem.par ((rlookup pq "expression").getD "")]
        else []))
   else [DocElem.par "No Power Query code available."])

/-- M Parameters section of `app_adv.generate_word_doc`. -/
def advWordMParameters (rd : ReportData) : List DocElem :=
  DocElem.heading "M Parameters" 1 ::
  (if framePresent rd.m_parameters then
     (rd.m_parameters.getD []).map (fun param =>
       DocElem.par ("Name: " ++ dget param "name" "N/A" ++ ", Value: " ++ dget param "value" "N/A"))
   else [DocElem.par "No M parameters available."])

/-- DAX Tables section of `app_adv.generate_word_doc`. -/
def advWordDaxTables (rd : ReportData) : List DocElem :=
  DocElem.heading "DAX Tables" 1 ::
  (if framePresent rd.dax_tables then
     (rd.dax_tables.getD []).flatMap (fun t =>
       DocElem.par ("Name: " ++ dget t "name" "N/A") ::
       (if truthyOpt (rlookup t "expression") then
          [DocElem.par "Expression:", DocElem.par ((rlookup t "expression").getD "")]
        else []))
   else [DocElem.par "No DAX tables available."])

/-- DAX Measures section of `app_adv.generate_word_doc`. -/
def advWordDaxMeasures (rd : ReportData) : List DocElem :=
  DocElem.heading "DAX Measures" 1 ::
  (if framePresent rd.dax_measures then
     (rd.dax_measures.getD []).flatMap (fun measure =>
       DocElem.par ("Name: " ++ dget measure "name" "N/A") ::
       (if truthyOpt (rlookup measure "expression") then
          [DocElem.par "Expression:", DocElem.par ((rlookup measure "expression").getD "")]
        else []))
   else [DocElem.par "No DAX measures available."])

/-- Embedding of `app_adv.generate_word_doc`: the sequence of elements added to
the Word document (its serialized buffer).  Total: the function performs only
reads and succeeds on every `ReportData`. -/
def generate_word_doc (rd : ReportData) : List DocElem :=
  DocElem.heading "Power BI Report Documentation" 0 ::
  (advWordMetadata rd ++ advWordSchema rd ++ advWordRelationships rd ++
   advWordPowerQuery rd ++ advWordMParameters rd ++ advWordDaxTables rd ++
   advWordDaxMeasures rd)

/-! ## app_adv.py: generate_pdf_doc

The canvas renderer threads a vertical cursor `y_position`.  `draw_text` and
`draw_paragraph` each emit one `drawString` and return the decremented cursor;
no code path emits a page break. -/

/-- Embedding of `draw_text` in `app_adv.generate_pdf_doc`: one `drawString`, new
cursor `y - size - 5` (the bold flag only selects a font and is not recorded). -/
def draw_text (text : String) (x y : Int) (size : Int) : List PdfOp × Int :=
  ([PdfOp.drawString x y text], y - size - 5)

/-- The truncation `text[:100] + "..." if len(text) > 100 else text` performed by
`draw_paragraph`. -/
def pdfTrunc (text : String) : String :=
  if text.length > 100 then String.mk (text.data.take 100) ++ "..." else text

/-- Embedding of `draw_paragraph` in `app_adv.generate_pdf_doc`: draws the
truncated text and returns cursor `y - size - 5`.  No page break is ever
emitted. -/
def draw_paragraph (text : String) (x y : Int) (size : Int) : List PdfOp × Int :=
  ([PdfOp.drawString x y (pdfTrunc text)], y - size - 5)

/-- Sequential drawing of a list of items, threading the cursor. -/
def drawList (f : α → Int → List PdfOp × Int) : List α → Int → List PdfOp × Int
  | [], y => ([], y)
  | a :: rest, y =>
    let (ops, y2) := f a y
    let (ops2, y3) := drawList f rest y2
    (ops ++ ops2, y3)

/-- Metadata section of `app_adv.generate_pdf_doc`. -/
def advPdfMetadata (rd : ReportData) (y : Int) : List PdfOp × Int :=
  let ht := draw_text "Metadata" 100 y 14
  if dictTruthy rd.metadata then
    let r := drawList (fun kv yy => draw_paragraph (kv.1 ++ ": " ++ kv.2) 100 yy 10)
      (rd.metadata.getD []) ht.2
    (ht.1 ++ r.1, r.2)
  else
    let r := draw_paragraph "No metadata available." 100 ht.2 10
    (ht.1 ++ r.1, r.2)

/-- Drawing of one schema table in `app_adv.generate_pdf_doc`. -/
def advPdfSchemaTable (t : STable) (y : Int) : List PdfOp × Int :=
  let ht := draw_text ("Table: " ++ t.name.getD "N/A") 100 y 12
  if colsTruthy t.columns then
    let lbl := draw_text "Columns:" 100 ht.2 10
    let r := drawList (fun c yy =>
        draw_paragraph ("- " ++ c.name.getD "N/A" ++ " (" ++ c.dataType.getD "N/A" ++ ")") 100 yy 10)
      (t.columns.getD []) lbl.2
    (ht.1 ++ lbl.1 ++ r.1, r.2)
  else
    let r := draw_paragraph "No columns found for this table." 100 ht.2 10
    (ht.1 ++ r.1, r.2)

/-- Schema section of `app_adv.generate_pdf_doc`. -/
def advPdfSchema (rd : ReportData) (y : Int) : List PdfOp × Int :=
  let ht := draw_text "Schema" 100 y 14
  if listTruthy rd.schema then
    let r := drawList advPdfSchemaTable (rd.schema.getD []) ht.2
    (ht.1 ++ r.1, r.2)
  else
    let r := draw_paragraph "No schema information available." 100 ht.2 10
    (ht.1 ++ r.1, r.2)

/-- Relationships section of `app_adv.generate_pdf_doc`. -/
def advPdfRelationships (rd : ReportData) (y : Int) : List PdfOp × Int :=
  let ht := draw_text "Relationships" 100 y 14
  if framePresent rd.relationships then
    let r := drawList (fun rel yy =>
        draw_paragraph ("From Table: " ++ dget rel "fromTable" "N/A"
          ++ ", From Column: " ++ dget rel "fromColumn" "N/A"
          ++ ", To Table: " ++ dget rel "toTable" "N/A"
          ++ ", To Column: " ++ dget rel "toColumn" "N/A") 100 yy 10)
      (rd.relationships.getD []) ht.2
    (ht.1 ++ r.1, r.2)
  else
    let r := draw_paragraph "No relationships available." 100 ht.2 10
    (ht.1 ++ r.1, r.2)

/-- Drawing of one record with a name and an optional expression (used by the
Power Query, DAX Tables and DAX Measures sections of `app_adv.generate_pdf_doc`). -/
def advPdfNamedExpr (r : Record) (y : Int) : List PdfOp × Int :=
  let n := draw_paragraph ("Name: " ++ dget r "name" "N/A") 100 y 10
  if truthyOpt (rlookup r "expression") then
    let lbl := draw_text "Expression:" 100 n.2 10
    let e := draw_paragraph ((rlookup r "expression").getD "") 100 lbl.2 10
    (n.1 ++ lbl.1 ++ e.1, e.2)
  else n

/-- Power Query section of `app_adv.generate_pdf_doc`. -/
def advPdfPowerQuery (rd : ReportData) (y : Int) : List PdfOp × Int :=
  let ht := draw_text "Power Query Code" 100 y 14
  if framePresent rd.power_query then
    let r := drawList advPdfNamedExpr (rd.power_query.getD []) ht.2
    (ht.1 ++ r.1, r.2)
  else
    let r := draw_paragraph "No Power Query code available." 100 ht.2 10
    (ht.1 ++ r.1, r.2)

/-- M Parameters section of `app_adv.generate_pdf_doc`. -/
def advPdfMParameters (rd : ReportData) (y : Int) : List PdfOp × Int :=
  let ht := draw_text "M Parameters" 100 y 14
  if framePresent rd.m_parameters then
    let r := drawList (fun param yy =>
        draw_paragraph ("Name: " ++ dget param "name" "N/A" ++ ", Value: " ++ dget param "value" "N/A") 100 yy 10)
      (rd.m_parameters.getD []) ht.2
    (ht.1 ++ r.1, r.2)
  else
    let r := draw_paragraph "No M parameters available." 100 ht.2 10
    (ht.1 ++ r.1, r.2)

/-- DAX Tables section of `app_adv.generate_pdf_doc`. -/
def advPdfDaxTables (rd : ReportData) (y : Int) : List PdfOp × Int :=
  let ht := draw_text "DAX Tables" 100 y 14
  if framePresent rd.dax_tables then
    let r := drawList advPdfNamedExpr (rd.dax_tables.getD []) ht.2
    (ht.1 ++ r.1, r.2)
  else
    let r := draw_paragraph "No DAX tables available." 100 ht.2 10
    (ht.1 ++ r.1, r.2)

/-- DAX Measures section of `app_adv.generate_pdf_doc`. -/
def advPdfDaxMeasures (rd : ReportData) (y : Int) : List PdfOp × Int :=
  let ht := draw_text "DAX Measures" 100 y 14
  if framePresent rd.dax_measures then
    let r := drawList advPdfNamedExpr (rd.dax_measures.getD []) ht.2
    (ht.1 ++ r.1, r.2)
  else
    let r := draw_paragraph "No DAX measures available." 100 ht.2 10
    (ht.1 ++ r.1, r.2)

/-- Embedding of `app_adv.generate_pdf_doc`: the sequence of canvas operations
(`letter` page: height 792, title at `height - 50`, cursor started at
`height - 100`).  Total: always returns a buffer. -/
def generate_pdf_doc (rd : ReportData) : List PdfOp :=
  let title := PdfOp.drawString 100 (792 - 50) "Power BI Report Documentation"
  let y0 : Int := 792 - 100
  let r1 := advPdfMetadata rd y0
  let r2 := advPdfSchema rd r1.2
  let r3 := advPdfRelationships rd r2.2
  let r4 := advPdfPowerQuery rd r3.2
  let r5 := advPdfMParameters rd r4.2
  let r6 := advPdfDaxTables rd r5.2
  let r7 := advPdfDaxMeasures rd r6.2
  title :: (r1.1 ++ r2.1 ++ r3.1 ++ r4.1 ++ r5.1 ++ r6.1 ++ r7.1)

/-! ## Excel renderer (modelled from the spec)

The repository contains no Excel/spreadsheet renderer under `src/`; the spec
(sections 2, 4.2, 6 and 8) nonetheless describes one.  It is modelled here from
the spec's words. -/

/-- One worksheet of a spreadsheet document. -/
structure XSheet where
  sheetName : String
  rows : List (List String)
deriving DecidableEq, Repr

/-- Modelled from the spec: sheet-name derivation of section 4.2 — the section
name "truncated to the platform's maximum sheet-name length, stripped of
characters outside alphanumeric/space/underscore, with a fallback generated name
if stripping yields an empty string" (31 is the xlsx sheet-name limit). -/
def sanitizeSheetName (s : String) : String :=
  let stripped := String.mk (s.data.filter (fun c => c.isAlphanum || c == ' ' || c == '_'))
  let truncated := String.mk (stripped.data.take 31)
  if truncated == "" then "Sheet1" else truncated

/-- Modelled from the spec: one worksheet per section — tabular content renders
as a header row of column names plus one row per record (section 4.2); an
empty/absent section renders the fixed placeholder row (section 3 invariant). -/
def excelSheet (secName : String) (content : Option (List Record)) : XSheet :=
  match content with
  | some rows =>
    if rows.isEmpty then
      ⟨sanitizeSheetName secName, [["No " ++ secName ++ " available."]]⟩
    else
      ⟨sanitizeSheetName secName,
        (rows.head?.getD []).map Prod.fst :: rows.map (fun r => r.map Prod.snd)⟩
  | none => ⟨sanitizeSheetName secName, [["No " ++ secName ++ " available."]]⟩

/-- Modelled from the spec: a worksheet for a section whose content is a
mapping of string to scalar (one key/value row per entry), with the section-3
placeholder for an empty/absent mapping. -/
def excelDictSheet (secName : String) (content : Option Record) : XSheet :=
  match content with
  | some kvs =>
    if kvs.isEmpty then
      ⟨sanitizeSheetName secName, [["No " ++ secName ++ " available."]]⟩
    else
      ⟨sanitizeSheetName secName, kvs.map (fun kv => [kv.1, kv.2])⟩
  | none => ⟨sanitizeSheetName secName, [["No " ++ secName ++ " available."]]⟩

/-- Modelled from the spec: the worksheet for the schema section — a header row
followed by one row per table (its name, then its columns rendered as
"name (dataType)" cells), with the section-3 placeholder row when the section
is absent or empty. -/
def excelSchemaSheet (content : Option (List STable)) : XSheet :=
  match content with
  | some ts =>
    if ts.isEmpty then
      ⟨sanitizeSheetName "schema", [["No schema available."]]⟩
    else
      ⟨sanitizeSheetName "schema",
        ["Table", "Columns"] ::
        ts.map (fun t => t.name.getD "N/A" ::
          (t.columns.getD []).map (fun c =>
            c.name.getD "N/A" ++ " (" ++ c.dataType.getD "N/A" ++ ")"))⟩
  | none => ⟨sanitizeSheetName "schema", [["No schema available."]]⟩

/-- Modelled from the spec: the Excel renderer absent from `src/` — it visits
the report's seven sections in order and emits one worksheet per section,
placeholder sheets for empty/absent sections (never omitting a section), then
serializes the workbook (modelled as the sheet list). -/
def generate_excel_doc (rd : ReportData) : List XSheet :=
  [excelDictSheet "metadata" rd.metadata,
   excelSchemaSheet rd.schema,
   excelSheet "relationships" rd.relationships,
   excelSheet "power_query" rd.power_query,
   excelSheet "m_parameters" rd.m_parameters,
   excelSheet "dax_tables" rd.dax_tables,
   excelSheet "dax_measures" rd.dax_measures]

/-! ## app_adv.py renderers as state-passing computations (frame property)

The renderers receive `report_data` and only ever read it (`.get`, `.items()`,
iteration, `.to_dict('records')` — none of which mutates).  To make the frame
property expressible, the renderers are restated as computations over an
explicit mutable-state model of `report_data`: every access goes through
`stGet`, and a mutation would have to replace the state. -/

/-- A state-passing computation over the `report_data` dictionary. -/
abbrev StM (α : Type) := ReportData → α × ReportData

/-- Read the current `report_data`. -/
def stGet : StM ReportData := fun s => (s, s)

/-- Sequencing of state-passing computations. -/
def stBind (m : StM α) (f : α → StM β) : StM β :=
  fun s => let (a, s2) := m s; f a s2

/-- Computation returning a value without touching `report_data`. -/
def stPure (a : α) : StM α := fun s => (a, s)

/-- `app_adv.generate_word_doc` as a state-passing computation: each section
reads `report_data` (one `stGet` per section, mirroring the source's repeated
`report_data.get(...)` probes) and appends its elements. -/
def generate_word_doc_st : StM (List DocElem) :=
  stBind stGet fun s1 =>
  stBind stGet fun s2 =>
  stBind stGet fun s3 =>
  stBind stGet fun s4 =>
  stBind stGet fun s5 =>
  stBind stGet fun s6 =>
  stBind stGet fun s7 =>
  stPure (DocElem.heading "Power BI Report Documentation" 0 ::
    (advWordMetadata s1 ++ advWordSchema s2 ++ advWordRelationships s3 ++
     advWordPowerQuery s4 ++ advWordMParameters s5 ++ advWordDaxTables s6 ++
     advWordDaxMeasures s7))

/-- `app_adv.generate_pdf_doc` as a state-passing computation. -/
def generate_pdf_doc_st : StM (List PdfOp) :=
  stBind stGet fun s => stPure (generate_pdf_doc s)

/-- Both renderers run in sequence on the same `report_data`, as
`app_adv.main` does before offering the two downloads. -/
def render_both_st : StM (List DocElem × List PdfOp) :=
  stBind generate_word_doc_st fun w =>
  stBind generate_pdf_doc_st fun p =>
  stPure (w, p)

/-! ## app.py: create_word_documentation

`extract_pbix_info` produces a dict whose values are a list (pages), a dict of
sub-sections (data_model, visuals), or any other value; `create_word_documentation`
iterates that dict in insertion order and dispatches on the value's type. -/

/-- A sub-section value inside a dict-valued section of `app.py`'s `pbix_info`
(`sub_details`: a list renders as bullets, anything else as one paragraph of its
`str()`). -/
inductive PSub where
  | lst (items : List String)
  | other (s : String)
deriving DecidableEq, Repr

/-- A section value of `app.py`'s `pbix_info` (`details`: list, dict, or other). -/
inductive PDetail where
  | lst (items : List String)
  | dct (entries : List (String × PSub))
  | other (s : String)
deriving DecidableEq, Repr

/-- Python `s.replace('_', ' ')`. -/
def pyReplaceUnd (s : String) : String :=
  String.mk (s.data.map (fun c => if c == '_' then ' ' else c))

/-- Helper for `pyTitle`: the boolean carries whether the previous character was
alphabetic. -/
def pyTitleAux : Bool → List Char → List Char
  | _, [] => []
  | prevAlpha, c :: cs =>
    let c2 := if c.isAlpha then (if prevAlpha then c.toLower else c.toUpper) else c
    c2 :: pyTitleAux c.isAlpha cs

/-- Python `s.title()`: the first letter of every alphabetic run is uppercased,
the rest lowercased. -/
def pyTitle (s : String) : String :=
  String.mk (pyTitleAux false s.data)

/-- The heading text `section.replace('_', ' ').title()` used by
`app.create_word_documentation`. -/
def sectionHeadingText (s : String) : String :=
  pyTitle (pyReplaceUnd s)

/-- Rendering of one sub-section value in `app.create_word_documentation`. -/
def app1RenderSub : PSub → List DocElem
  | .lst items => items.map (fun i => DocElem.par i)
  | .other s => [DocElem.par s]

/-- Rendering of one section's `details` in `app.create_word_documentation`
(the content that follows the section's level-1 heading). -/
def app1RenderDetail : PDetail → List DocElem
  | .lst items => items.map (fun i => DocElem.par i)
  | .dct entries =>
    entries.flatMap (fun p => DocElem.heading (sectionHeadingText p.1) 2 :: app1RenderSub p.2)
  | .other s => [DocElem.par s]

/-- The closing note paragraph of `app.create_word_documentation`. -/
def app1Note : String :=
  "Note: Detailed information for some sections (e.g., specific visual configurations) may require deeper parsing and are represented with placeholders if not fully extracted."

/-- Embedding of `app.create_word_documentation`: title, then per section (in
the insertion order of `pbix_info`) a level-1 heading followed by the section's
content, then the closing note. -/
def create_word_documentation (info : List (String × PDetail)) : List DocElem :=
  DocElem.heading "PBIX File Documentation" 0 ::
  info.flatMap (fun p => DocElem.heading (sectionHeadingText p.1) 1 :: app1RenderDetail p.2)
  ++ [DocElem.par app1Note]

/-! ## app3.py: generate_word_doc

Sections of the parsed JSON are rendered only under `if 'key' in data and
data['key']:` guards — an absent or falsy section produces nothing at all (no
heading, no placeholder).  Scalar fields probed with `.get` live in `Record`s;
fields indexed directly (`table['name']`, `measure['name']`,
`measure['expression']`) are structure fields. -/

/-- A table entry of `app3.py`'s `data['tables']`. -/
structure A3Table where
  name : String
  attrs : Record
  columns : List Record
deriving DecidableEq, Repr

/-- A measure entry of `app3.py`'s `data['measures']`. -/
structure A3Measure where
  name : String
  expression : String
  attrs : Record
deriving DecidableEq, Repr

/-- A culture entry of `app3.py`'s `data['cultures']`; `linguisticMetadata` is
kept as its `json.dumps(..., indent=2)` rendering. -/
structure A3Culture where
  attrs : Record
  linguisticMetadata : Option String
deriving DecidableEq, Repr

/-- A role entry of `app3.py`'s `data['roles']`. -/
structure A3Role where
  attrs : Record
  tablePermissions : List Record
deriving DecidableEq, Repr

/-- The parsed pbixray JSON consumed by `app3.generate_word_doc`; a `none`
field models a key absent from the JSON, and the truthiness guards in the source
also skip present-but-empty values. -/
structure A3Data where
  model : Option Record
  tables : Option (List A3Table)
  measures : Option (List A3Measure)
  relationships : Option (List Record)
  cultures : Option (List A3Culture)
  datasources : Option (List Record)
  roles : Option (List A3Role)
  expressions : Option (List Record)
  annotationEntries : Option (List Record)
deriving DecidableEq, Repr

/-- The guard `'k' in data and data['k']` of `app3.generate_word_doc` for a
list-valued section. -/
def a3Present (o : Option (List α)) : Bool :=
  match o with
  | some l => !l.isEmpty
  | none => false

/-- The same guard for the dict-valued `model` section. -/
def a3DictPresent (o : Option Record) : Bool :=
  match o with
  | some r => !r.isEmpty
  | none => false

/-- Model Information section of `app3.generate_word_doc` (emitted only when
`'model' in data and data['model']`). -/
def a3WordModel (d : A3Data) : List DocElem :=
  if a3DictPresent d.model then
    let m := d.model.getD []
    [DocElem.heading "Model Information" 1,
     DocElem.par ("Name: " ++ dget m "name" "N/A"),
     DocElem.par ("Culture: " ++ dget m "culture" "N/A"),
     DocElem.par ("Default Mode: " ++ dget m "defaultMode" "N/A"),
     DocElem.par ("Description: " ++ dget m "description" "N/A"),
     DocElem.par ("Modified Time: " ++ dget m "modifiedTime" "N/A")]
  else []

/-- Tables section of `app3.generate_word_doc`; `md` stands for the external
`pandas` rendering `DataFrame(columns)[existing].to_markdown(index=False)`. -/
def a3WordTables (md : List Record → String) (d : A3Data) : List DocElem :=
  if a3Present d.tables then
    DocElem.heading "Tables" 1 ::
    (d.tables.getD []).flatMap (fun t =>
      [DocElem.heading ("Table: " ++ t.name) 2,
       DocElem.par ("Description: " ++ dget t.attrs "description" "N/A"),
       DocElem.par ("Hidden: " ++ dget t.attrs "isHidden" "N/A"),
       DocElem.par ("Data Category: " ++ dget t.attrs "dataCategory" "N/A"),
       DocElem.par ("Lineage Tag: " ++ dget t.attrs "lineageTag" "N/A")] ++
      (if !t.columns.isEmpty then [DocElem.par "Columns:", DocElem.par (md t.columns)] else []))
  else []

/-- Measures section of `app3.generate_word_doc`. -/
def a3WordMeasures (d : A3Data) : List DocElem :=
  if a3Present d.measures then
    DocElem.heading "Measures" 1 ::
    (d.measures.getD []).flatMap (fun m =>
      [DocElem.heading ("Measure: " ++ m.name) 2,
       DocElem.par ("Expression: " ++ m.expression),
       DocElem.par ("Description: " ++ dget m.attrs "description" "N/A"),
       DocElem.par ("Display Folder: " ++ dget m.attrs "displayFolder" "N/A"),
       DocElem.par ("Format String: " ++ dget m.attrs "formatString" "N/A"),
       DocElem.par ("Hidden: " ++ dget m.attrs "isHidden" "N/A"),
       DocElem.par ("Data Category: " ++ dget m.attrs "dataCategory" "N/A"),
       DocElem.par ("Display Format: " ++ dget m.attrs "displayFormat" "N/A"),
       DocElem.par ("Lineage Tag: " ++ dget m.attrs "lineageTag" "N/A")])
  else []

/-- Relationships section of `app3.generate_word_doc`. -/
def a3WordRelationships (d : A3Data) : List DocElem :=
  if a3Present d.relationships then
    DocElem.heading "Relationships" 1 ::
    (d.relationships.getD []).flatMap (fun r =>
      [DocElem.heading ("Relationship: " ++ dget r "name" "N/A") 2,
       DocElem.par ("From Table: " ++ dget r "fromTable" "N/A"),
       DocElem.par ("From Column: " ++ dget r "fromColumn" "N/A"),
       DocElem.par ("To Table: " ++ dget r "toTable" "N/A"),
       DocElem.par ("To Column: " ++ dget r "toColumn" "N/A"),
       DocElem.par ("Join On Date Behavior: " ++ dget r "joinOnDateBehavior" "N/A"),
       DocElem.par ("State: " ++ dget r "state" "N/A"),
       DocElem.par ("Type: " ++ dget r "type" "N/A"),
       DocElem.par ("Cross Filtering Behavior: " ++ dget r "crossFilteringBehavior" "N/A"),
       DocElem.par ("Active: " ++ dget r "isActive" "N/A"),
       DocElem.par ("Security Filtering Behavior: " ++ dget r "securityFilteringBehavior" "N/A"),
       DocElem.par ("Lineage Tag: " ++ dget r "lineageTag" "N/A")])
  else []

/-- Cultures section of `app3.generate_word_doc`. -/
def a3WordCultures (d : A3Data) : List DocElem :=
  if a3Present d.cultures then
    DocElem.heading "Cultures" 1 ::
    (d.cultures.getD []).flatMap (fun c =>
      [DocElem.heading ("Culture: " ++ dget c.attrs "name" "N/A") 2,
       DocElem.par ("Language: " ++ dget c.attrs "language" "N/A")] ++
      (if truthyOpt c.linguisticMetadata then
         [DocElem.par "Linguistic Metadata:", DocElem.par (c.linguisticMetadata.getD "")]
       else []))
  else []

/-- Data Sources section of `app3.generate_word_doc`. -/
def a3WordDatasources (d : A3Data) : List DocElem :=
  if a3Present d.datasources then
    DocElem.heading "Data Sources" 1 ::
    (d.datasources.getD []).flatMap (fun s =>
      [DocElem.heading ("Data Source: " ++ dget s "name" "N/A") 2,
       DocElem.par ("Type: " ++ dget s "type" "N/A"),
       DocElem.par ("Connection String: " ++ dget s "connectionString" "N/A"),
       DocElem.par ("Datasource Type: " ++ dget s "datasourceType" "N/A"),
       DocElem.par ("Gateway: " ++ dget s "gateway" "N/A"),
       DocElem.par ("Server: " ++ dget s "server" "N/A"),
       DocElem.par ("Database: " ++ dget s "database" "N/A")])
  else []

/-- Roles section of `app3.generate_word_doc`. -/
def a3WordRoles (d : A3Data) : List DocElem :=
  if a3Present d.roles then
    DocElem.heading "Roles" 1 ::
    (d.roles.getD []).flatMap (fun r =>
      [DocElem.heading ("Role: " ++ dget r.attrs "name" "N/A") 2,
       DocElem.par ("Model Permission: " ++ dget r.attrs "modelPermission" "N/A")] ++
      (if !r.tablePermissions.isEmpty then
         DocElem.par "Table Permissions:" ::
         r.tablePermissions.flatMap (fun tp =>
           [DocElem.par ("- Table: " ++ dget tp "name" "N/A"),
            DocElem.par ("  - Filter Expression: " ++ dget tp "filterExpression" "N/A"),
            DocElem.par ("  - Rows Access: " ++ dget tp "rowsAccess" "N/A")])
       else []))
  else []

/-- Expressions section of `app3.generate_word_doc`. -/
def a3WordExpressions (d : A3Data) : List DocElem :=
  if a3Present d.expressions then
    DocElem.heading "Expressions" 1 ::
    (d.expressions.getD []).flatMap (fun e =>
      [DocElem.heading ("Expression: " ++ dget e "name" "N/A") 2,
       DocElem.par ("Kind: " ++ dget e "kind" "N/A"),
       DocElem.par ("Expression: " ++ dget e "expression" "N/A"),
       DocElem.par ("Hidden: " ++ dget e "isHidden" "N/A"),
       DocElem.par ("Lineage Tag: " ++ dget e "lineageTag" "N/A")])
  else []

/-- Annotations section of `app3.generate_word_doc`. -/
def a3WordAnnotationSection (d : A3Data) : List DocElem :=
  if a3Present d.annotationEntries then
    DocElem.heading "Annotations" 1 ::
    (d.annotationEntries.getD []).flatMap (fun a =>
      [DocElem.heading ("Annotation: " ++ dget a "name" "N/A") 2,
       DocElem.par ("Value: " ++ dget a "value" "N/A")])
  else []

/-- Embedding of `app3.generate_word_doc`: title, then each section only when
its guard holds — an absent/empty section contributes no elements at all. -/
def a3_generate_word_doc (md : List Record → String) (d : A3Data) : List DocElem :=
  DocElem.heading "PBIX Documentation" 0 ::
  (a3WordModel d ++ a3WordTables md d ++ a3WordMeasures d ++ a3WordRelationships d ++
   a3WordCultures d ++ a3WordDatasources d ++ a3WordRoles d ++ a3WordExpressions d ++
   a3WordAnnotationSection d)

/-! ## app2.py: analysis data model

`analyze_pbix_file` builds `analysis_results`, a dict whose values have
heterogeneous types.  The dict is embedded as an ordered association list
`AR` over a value union `PV`; well-typed contents (the shapes the extraction
loop constructs) are the structures below. -/

/-- A `row_count` value: pbixray may report a number or something else
(`analyze_performance_and_complexity` guards with `isinstance(row_count, (int, float))`,
the renderers display it verbatim). -/
inductive RCount where
  | num (n : Int)
  | str (s : String)
deriving DecidableEq, Repr

/-- Display of a `row_count` inside an f-string. -/
def RCount.display : RCount → String
  | .num n => toString n
  | .str s => s

/-- The per-column dict built in `analyze_pbix_file` (lines 54-67 of app2.py). -/
structure ColumnInfo where
  name : String
  data_type : String
  is_hidden : Bool
  is_keyed : Bool
  is_nullable : Bool
  is_unique : Bool
  source_column : String
  summarization_function : String
  data_category : String
  display_folder : String
  format_string : String
  expression : Option String
deriving DecidableEq, Repr

/-- The per-table dict built in `analyze_pbix_file` (`columns` keyed by column name). -/
structure TableInfo where
  name : String
  row_count : RCount
  columns : List (String × ColumnInfo)
deriving DecidableEq, Repr

/-- The per-measure dict built in `analyze_pbix_file`. -/
structure MeasureInfo where
  name : String
  expression : String
  display_folder : String
  format_string : String
  is_hidden : Bool
deriving DecidableEq, Repr

/-- The value union of the `analysis_results` dict.  A wrong-typed value under a
section key (possible because the dict is untyped Python) makes the duck-typed
operations below raise. -/
inductive PV where
  | str (s : String)
  | int (n : Int)
  | dictS (d : List (String × String))
  | tbls (ts : List (String × TableInfo))
  | meas (ms : List (String × MeasureInfo))
  | rels (rs : List Record)
  | params (ps : List Record)
  | dax (ds : List (String × Record))
deriving DecidableEq, Repr

/-- Python truthiness of a `PV`. -/
def PV.truthy : PV → Bool
  | .str s => s != ""
  | .int n => n != 0
  | .dictS d => !d.isEmpty
  | .tbls ts => !ts.isEmpty
  | .meas ms => !ms.isEmpty
  | .rels rs => !rs.isEmpty
  | .params ps => !ps.isEmpty
  | .dax ds => !ds.isEmpty

/-- `.items()` on a value used as the metadata dict; raises on any other shape. -/
def PV.itemsS : PV → Except String (List (String × String))
  | .dictS d => .ok d
  | _ => .error "AttributeError: object has no attribute items"

/-- `.items()` on a value used as the tables dict. -/
def PV.itemsTbl : PV → Except String (List (String × TableInfo))
  | .tbls ts => .ok ts
  | _ => .error "AttributeError: object has no attribute items"

/-- `.items()` on a value used as the measures dict. -/
def PV.itemsMeas : PV → Except String (List (String × MeasureInfo))
  | .meas ms => .ok ms
  | _ => .error "AttributeError: object has no attribute items"

/-- Iteration over a value used as the relationships list. -/
def PV.iterRels : PV → Except String (List Record)
  | .rels rs => .ok rs
  | _ => .error "TypeError: object is not iterable"

/-- Iteration over a value used as the M-parameters list. -/
def PV.iterParams : PV → Except String (List Record)
  | .params ps => .ok ps
  | _ => .error "TypeError: object is not iterable"

/-- `.items()` on a value used as the DAX-tables dict. -/
def PV.itemsDax : PV → Except String (List (String × Record))
  | .dax ds => .ok ds
  | _ => .error "AttributeError: object has no attribute items"

/-- `.strip()` on a value used as the Power Query string. -/
def PV.asStr : PV → Except String String
  | .str s => .ok s
  | _ => .error "AttributeError: object has no attribute strip"

/-- The `analysis_results` dict: an ordered mapping from section name to value. -/
abbrev AR := List (String × PV)

/-- Key lookup in an `AR`. -/
def lookupPV : AR → String → Option PV
  | [], _ => none
  | (k, v) :: r, key => if k == key then some v else lookupPV r key

/-- Python `analysis_results.get(key, default)`. -/
def arGet (ar : AR) (k : String) (d : PV) : PV :=
  (lookupPV ar k).getD d

/-! ## app2.py: analyze_pbix_file

The external analyzer (`pbixray.PBIXRay`) is a structure of accessor results;
an `Except.error` accessor models one that raises.  The whole body of
`analyze_pbix_file` sits inside a single `try/except` that returns `None`, so
any accessor error makes the function return `None`.  The only defensive probe
is `hasattr(column, 'expression')`: `expressionAttr = none` models a column
object without that attribute, in which case `None` is recorded. -/

/-- A pbixray column object (accessors the extraction loop calls; all total
except the optional `expression` attribute). -/
structure ColumnSrc where
  name : String
  data_type : String
  is_hidden : Bool
  is_keyed : Bool
  is_nullable : Bool
  is_unique : Bool
  source_column : String
  summarization_function : String
  data_category : String
  display_folder : String
  format_string : String
  expressionAttr : Option (Option String)
deriving DecidableEq, Repr

/-- A pbixray table object. -/
structure TableSrc where
  name : String
  row_count : RCount
  columns : List ColumnSrc
deriving DecidableEq, Repr

/-- A pbixray measure object. -/
structure MeasureSrc where
  name : String
  expression : String
  display_folder : String
  format_string : String
  is_hidden : Bool
deriving DecidableEq, Repr

/-- A pbixray relationship object. -/
structure RelationshipSrc where
  name : String
  from_table : String
  from_column : String
  to_table : String
  to_column : String
  model : String
  is_active : Bool
  cross_filter_direction : String
  security_filter_table : String
deriving DecidableEq, Repr

/-- The external analyzer: one accessor result per section, each of which may
raise (`Except.error`). -/
structure PBIXModel where
  metadata : Except String (List (String × String))
  size : Except String Int
  power_query : Except String String
  m_parameters : Except String (List Record)
  dax_tables : Except String (List (String × Record))
  tables : Except String (List TableSrc)
  measures : Except String (List MeasureSrc)
  relationships : Except String (List RelationshipSrc)
deriving Repr

/-- The column dict built at lines 54-67 of app2.py
(`column.expression() if hasattr(column, 'expression') else None`). -/
def mkColumnInfo (c : ColumnSrc) : ColumnInfo where
  name := c.name
  data_type := c.data_type
  is_hidden := c.is_hidden
  is_keyed := c.is_keyed
  is_nullable := c.is_nullable
  is_unique := c.is_unique
  source_column := c.source_column
  summarization_function := c.summarization_function
  data_category := c.data_category
  display_folder := c.display_folder
  format_string := c.format_string
  expression := match c.expressionAttr with
    | some v => v
    | none => none

/-- The table dict built at lines 48-69 of app2.py. -/
def mkTableInfo (t : TableSrc) : TableInfo where
  name := t.name
  row_count := t.row_count
  columns := t.columns.map (fun c => (c.name, mkColumnInfo c))

/-- The measure dict built at lines 73-80 of app2.py. -/
def mkMeasureInfo (m : MeasureSrc) : MeasureInfo where
  name := m.name
  expression := m.expression
  display_folder := m.display_folder
  format_string := m.format_string
  is_hidden := m.is_hidden

/-- The relationship dict built at lines 84-94 of app2.py (the boolean
`is_active` is stored; the renderers later apply `str()` to it). -/
def mkRelationshipInfo (r : RelationshipSrc) : Record :=
  [("name", r.name), ("from_table", r.from_table), ("from_column", r.from_column),
   ("to_table", r.to_table), ("to_column", r.to_column), ("model", r.model),
   ("active", pyBool r.is_active), ("cross_filter_direction", r.cross_filter_direction),
   ("security_filter_table", r.security_filter_table)]

/-- The fully-built `analysis_results` of a successful `analyze_pbix_file` run,
fields in the order the source inserts the keys. -/
structure AnalysisResults where
  metadata : List (String × String)
  size_bytes : Int
  tables : List (String × TableInfo)
  relationships : List Record
  measures : List (String × MeasureInfo)
  power_query : String
  m_parameters : List Record
  dax_tables : List (String × Record)
deriving DecidableEq, Repr

/-- The `analysis_results` dict denoted by an `AnalysisResults`, with the keys
in insertion order ("tables", "relationships" and "measures" are inserted empty
by the dict literal and filled by the loops that follow). -/
def AnalysisResults.toAR (a : AnalysisResults) : AR :=
  [("metadata", PV.dictS a.metadata),
   ("size_bytes", PV.int a.size_bytes),
   ("tables", PV.tbls a.tables),
   ("relationships", PV.rels a.relationships),
   ("measures", PV.meas a.measures),
   ("power_query", PV.str a.power_query),
   ("m_parameters", PV.params a.m_parameters),
   ("dax_tables", PV.dax a.dax_tables)]

/-- Embedding of `app2.analyze_pbix_file`: every accessor call sits inside one
`try/except Exception` that returns `None`, so the first accessor error aborts
the whole extraction.  Accessors are sequenced in the order the source calls
them (the dict literal, then the tables, measures and relationships loops). -/
def analyze_pbix_file (m : PBIXModel) : Option AnalysisResults :=
  (do
    let metadata ← m.metadata
    let size_bytes ← m.size
    let power_query ← m.power_query
    let m_parameters ← m.m_parameters
    let dax_tables ← m.dax_tables
    let tables ← m.tables
    let measures ← m.measures
    let relationships ← m.relationships
    Except.ok
      { metadata := metadata
        size_bytes := size_bytes
        tables := tables.map (fun t => (t.name, mkTableInfo t))
        relationships := relationships.map mkRelationshipInfo
        measures := measures.map (fun mm => (mm.name, mkMeasureInfo mm))
        power_query := power_query
        m_parameters := m_parameters
        dax_tables := dax_tables } : Except String AnalysisResults).toOption

/-! ## app2.py: generate_documentation, Word branch

The Word branch adds a fixed sequence of section headings (Metadata, Tables,
Measures, Relationships, Power Query (M Code), M Parameters, DAX Tables) with
no `try/except` anywhere: a duck-typing error inside a section propagates out
of the function.  Each section function returns its heading followed by its
body, or the raised error. -/

/-- The cell `col_info.get('expression', 'N/A') if col_info.get('expression') else ''`. -/
def exprCell (ci : ColumnInfo) : String :=
  if truthyOpt ci.expression then ci.expression.getD "N/A" else ""

/-- One data row of the per-table column table (lines 140-147 of app2.py). -/
def columnRow (colName : String) (ci : ColumnInfo) : List String :=
  [colName, ci.data_type, pyBool ci.is_hidden, ci.source_column,
   ci.summarization_function, exprCell ci]

/-- The header row of the per-table column table. -/
def columnHeader : List String :=
  ["Name", "Data Type", "Is Hidden", "Source Column", "Summarization", "Expression"]

/-- One data row of the relationships table (lines 181-190 of app2.py): each
logical field is probed under exactly one literal key with default `'N/A'`. -/
def relRow (rel : Record) : List String :=
  [dget rel "name" "N/A", dget rel "from_table" "N/A", dget rel "from_column" "N/A",
   dget rel "to_table" "N/A", dget rel "to_column" "N/A", dget rel "model" "N/A",
   dget rel "active" "N/A", dget rel "cross_filter_direction" "N/A"]

/-- The header row of the relationships table. -/
def relHeader : List String :=
  ["Name", "From Table", "From Column", "To Table", "To Column", "Model", "Active",
   "Cross Filter Direction"]

/-- Metadata section of the Word branch. -/
def a2WordMetadata (ar : AR) : Except String (List DocElem) := do
  let metadata := arGet ar "metadata" (PV.dictS [])
  if metadata.truthy then do
    let kvs ← metadata.itemsS
    pure (DocElem.heading "Metadata" 1 ::
      kvs.map (fun kv => DocElem.par ("**" ++ kv.1 ++ ":** " ++ kv.2)))
  else
    pure [DocElem.heading "Metadata" 1, DocElem.par "No metadata available."]

/-- Rendering of one table entry in the Tables section of the Word branch. -/
def a2WordTable (tname : String) (ti : TableInfo) : List DocElem :=
  [DocElem.heading ("Table: " ++ tname ++ " (Rows: " ++ ti.row_count.display ++ ")") 2,
   DocElem.heading "Columns" 3] ++
  (if !ti.columns.isEmpty then
     let column_data := columnHeader :: ti.columns.map (fun p => columnRow p.1 p.2)
     if column_data.length > 1 then [DocElem.table column_data] else []
   else [DocElem.par "No columns found for this table."])

/-- Tables section of the Word branch. -/
def a2WordTables (ar : AR) : Except String (List DocElem) := do
  let tables := arGet ar "tables" (PV.tbls [])
  if tables.truthy then do
    let ts ← tables.itemsTbl
    pure (DocElem.heading "Tables" 1 ::
      DocElem.par ("Number of Tables: " ++ toString ts.length) ::
      ts.flatMap (fun p => a2WordTable p.1 p.2))
  else
    pure [DocElem.heading "Tables" 1, DocElem.par "No tables found."]

/-- Rendering of one measure entry in the Measures section of the Word branch. -/
def a2WordMeasure (mname : String) (mi : MeasureInfo) : List DocElem :=
  [DocElem.heading ("Measure: " ++ mname) 2,
   DocElem.par ("**Expression:** " ++ mi.expression),
   DocElem.par ("**Display Folder:** " ++ mi.display_folder),
   DocElem.par ("**Format String:** " ++ mi.format_string),
   DocElem.par ("**Is Hidden:** " ++ pyBool mi.is_hidden)]

/-- Measures section of the Word branch. -/
def a2WordMeasures (ar : AR) : Except String (List DocElem) := do
  let measures := arGet ar "measures" (PV.meas [])
  if measures.truthy then do
    let ms ← measures.itemsMeas
    pure (DocElem.heading "Measures" 1 ::
      DocElem.par ("Number of Measures: " ++ toString ms.length) ::
      ms.flatMap (fun p => a2WordMeasure p.1 p.2))
  else
    pure [DocElem.heading "Measures" 1, DocElem.par "No measures found."]

/-- Relationships section of the Word branch. -/
def a2WordRelationships (ar : AR) : Except String (List DocElem) := do
  let relationships := arGet ar "relationships" (PV.rels [])
  if relationships.truthy then do
    let rs ← relationships.iterRels
    let relationship_data := relHeader :: rs.map relRow
    pure (DocElem.heading "Relationships" 1 ::
      DocElem.par ("Number of Relationships: " ++ toString rs.length) ::
      (if relationship_data.length > 1 then [DocElem.table relationship_data] else []))
  else
    pure [DocElem.heading "Relationships" 1, DocElem.par "No relationships found."]

/-- Power Query section of the Word branch (`if power_query and power_query.strip():`). -/
def a2WordPowerQuery (ar : AR) : Except String (List DocElem) := do
  let power_query := arGet ar "power_query" (PV.str "No M code found.")
  if power_query.truthy then do
    let s ← power_query.asStr
    if pyStrip s != "" then
      pure [DocElem.heading "Power Query (M Code)" 1, DocElem.par "M Code:", DocElem.par s]
    else
      pure [DocElem.heading "Power Query (M Code)" 1,
        DocElem.par "No Power Query (M Code) found."]
  else
    pure [DocElem.heading "Power Query (M Code)" 1,
      DocElem.par "No Power Query (M Code) found."]

/-- M Parameters section of the Word branch. -/
def a2WordMParameters (ar : AR) : Except String (List DocElem) := do
  let m_parameters := arGet ar "m_parameters" (PV.params [])
  if m_parameters.truthy then do
    let ps ← m_parameters.iterParams
    pure (DocElem.heading "M Parameters" 1 ::
      DocElem.par ("Number of M Parameters: " ++ toString ps.length) ::
      ps.map (fun p => DocElem.par ("- Name: " ++ dget p "name" "N/A" ++ ", Value: "
        ++ dget p "value" "N/A" ++ ", Data Type: " ++ dget p "dataType" "N/A")))
  else
    pure [DocElem.heading "M Parameters" 1, DocElem.par "No M Parameters found."]

/-- DAX Tables section of the Word branch. -/
def a2WordDaxTables (ar : AR) : Except String (List DocElem) := do
  let dax_tables := arGet ar "dax_tables" (PV.dax [])
  if dax_tables.truthy then do
    let ds ← dax_tables.itemsDax
    pure (DocElem.heading "DAX Tables" 1 ::
      DocElem.par ("Number of DAX Tables: " ++ toString ds.length) ::
      ds.flatMap (fun p =>
        [DocElem.heading ("DAX Table: " ++ p.1) 2,
         DocElem.par ("**Expression:** " ++ dget p.2 "expression" "N/A"),
         DocElem.par ("**Display Folder:** " ++ dget p.2 "display_folder" "N/A"),
         DocElem.par ("**Is Hidden:** " ++ dget p.2 "is_hidden" "N/A")]))
  else
    pure [DocElem.heading "DAX Tables" 1, DocElem.par "No DAX Tables found."]

/-- Embedding of the Word branch of `app2.generate_documentation`: the document
elements in the order they are added, or the first uncaught duck-typing error.
The `doc.save(buffer)` at the end is not guarded by any `try`, and the branch
always returns the buffer when no section raised. -/
def a2_generate_word (ar : AR) : Except String (List DocElem) := do
  let s1 ← a2WordMetadata ar
  let s2 ← a2WordTables ar
  let s3 ← a2WordMeasures ar
  let s4 ← a2WordRelationships ar
  let s5 ← a2WordPowerQuery ar
  let s6 ← a2WordMParameters ar
  let s7 ← a2WordDaxTables ar
  pure (DocElem.heading "PBIX File Documentation" 0 :: (s1 ++ s2 ++ s3 ++ s4 ++ s5 ++ s6 ++ s7))

/-! ## app2.py: generate_documentation, PDF branch

Same fixed section sequence as the Word branch, built as a platypus `story`.
Only the final `doc.build(story)` sits inside a `try/except` (lines 386-392):
a build failure returns `None`, while a duck-typing error while building the
story propagates out of the function. -/

/-- Metadata section of the PDF branch. -/
def a2PdfMetadata (ar : AR) : Except String (List PdfElem) := do
  let metadata := arGet ar "metadata" (PV.dictS [])
  let body ←
    if metadata.truthy then do
      let kvs ← metadata.itemsS
      pure (kvs.map (fun kv => PdfElem.par ("<b>" ++ kv.1 ++ ":</b> " ++ kv.2) "Normal"))
    else
      pure [PdfElem.par "No metadata available." "Normal"]
  pure (PdfElem.par "Metadata" "h2" :: body ++ [PdfElem.spacer 1 12])

/-- Rendering of one table entry in the Tables section of the PDF branch. -/
def a2PdfTable (tname : String) (ti : TableInfo) : List PdfElem :=
  [PdfElem.par ("Table: " ++ tname ++ " (Rows: " ++ ti.row_count.display ++ ")") "h3",
   PdfElem.par "Columns" "h4"] ++
  (if !ti.columns.isEmpty then
     let column_data := columnHeader :: ti.columns.map (fun p => columnRow p.1 p.2)
     if column_data.length > 1 then [PdfElem.table column_data] else []
   else [PdfElem.par "No columns found for this table." "Normal"]) ++
  [PdfElem.spacer 1 6]

/-- Tables section of the PDF branch. -/
def a2PdfTables (ar : AR) : Except String (List PdfElem) := do
  let tables := arGet ar "tables" (PV.tbls [])
  let body ←
    if tables.truthy then do
      let ts ← tables.itemsTbl
      pure (PdfElem.par ("Number of Tables: " ++ toString ts.length) "Normal" ::
        ts.flatMap (fun p => a2PdfTable p.1 p.2))
    else
      pure [PdfElem.par "No tables found." "Normal"]
  pure (PdfElem.par "Tables" "h2" :: body ++ [PdfElem.spacer 1 12])

/-- Measures section of the PDF branch. -/
def a2PdfMeasures (ar : AR) : Except String (List PdfElem) := do
  let measures := arGet ar "measures" (PV.meas [])
  let body ←
    if measures.truthy then do
      let ms ← measures.itemsMeas
      pure (PdfElem.par ("Number of Measures: " ++ toString ms.length) "Normal" ::
        ms.flatMap (fun p =>
          [PdfElem.par ("Measure: " ++ p.1) "h3",
           PdfElem.par ("<b>Expression:</b> " ++ p.2.expression) "Normal",
           PdfElem.par ("<b>Display Folder:</b> " ++ p.2.display_folder) "Normal",
           PdfElem.par ("<b>Format String:</b> " ++ p.2.format_string) "Normal",
           PdfElem.par ("<b>Is Hidden:</b> " ++ pyBool p.2.is_hidden) "Normal",
           PdfElem.spacer 1 6]))
    else
      pure [PdfElem.par "No measures found." "Normal"]
  pure (PdfElem.par "Measures" "h2" :: body ++ [PdfElem.spacer 1 12])

/-- Relationships section of the PDF branch. -/
def a2PdfRelationships (ar : AR) : Except String (List PdfElem) := do
  let relationships := arGet ar "relationships" (PV.rels [])
  let body ←
    if relationships.truthy then do
      let rs ← relationships.iterRels
      let relationship_data := relHeader :: rs.map relRow
      pure (PdfElem.par ("Number of Relationships: " ++ toString rs.length) "Normal" ::
        (if relationship_data.length > 1 then [PdfElem.table relationship_data] else []))
    else
      pure [PdfElem.par "No relationships found." "Normal"]
  pure (PdfElem.par "Relationships" "h2" :: body ++ [PdfElem.spacer 1 12])

/-- Power Query section of the PDF branch. -/
def a2PdfPowerQuery (ar : AR) : Except String (List PdfElem) := do
  let power_query := arGet ar "power_query" (PV.str "No M code found.")
  let body ←
    if power_query.truthy then do
      let s ← power_query.asStr
      if pyStrip s != "" then
        pure [PdfElem.par "M Code:" "Normal", PdfElem.par s "Code"]
      else
        pure [PdfElem.par "No Power Query (M Code) found." "Normal"]
    else
      pure [PdfElem.par "No Power Query (M Code) found." "Normal"]
  pure (PdfElem.par "Power Query (M Code)" "h2" :: body ++ [PdfElem.spacer 1 12])

/-- M Parameters section of the PDF branch. -/
def a2PdfMParameters (ar : AR) : Except String (List PdfElem) := do
  let m_parameters := arGet ar "m_parameters" (PV.params [])
  let body ←
    if m_parameters.truthy then do
      let ps ← m_parameters.iterParams
      pure (PdfElem.par ("Number of M Parameters: " ++ toString ps.length) "Normal" ::
        ps.map (fun p => PdfElem.par ("- Name: " ++ dget p "name" "N/A" ++ ", Value: "
          ++ dget p "value" "N/A" ++ ", Data Type: " ++ dget p "dataType" "N/A") "Normal"))
    else
      pure [PdfElem.par "No M Parameters found." "Normal"]
  pure (PdfElem.par "M Parameters" "h2" :: body ++ [PdfElem.spacer 1 12])

/-- DAX Tables section of the PDF branch. -/
def a2PdfDaxTables (ar : AR) : Except String (List PdfElem) := do
  let dax_tables := arGet ar "dax_tables" (PV.dax [])
  let body ←
    if dax_tables.truthy then do
      let ds ← dax_tables.itemsDax
      pure (PdfElem.par ("Number of DAX Tables: " ++ toString ds.length) "Normal" ::
        ds.flatMap (fun p =>
          [PdfElem.par ("DAX Table: " ++ p.1) "h3",
           PdfElem.par ("<b>Expression:</b> " ++ dget p.2 "expression" "N/A") "Normal",
           PdfElem.par ("<b>Display Folder:</b> " ++ dget p.2 "display_folder" "N/A") "Normal",
           PdfElem.par ("<b>Is Hidden:</b> " ++ dget p.2 "is_hidden" "N/A") "Normal",
           PdfElem.spacer 1 6]))
    else
      pure [PdfElem.par "No DAX Tables found." "Normal"]
  pure (PdfElem.par "DAX Tables" "h2" :: body ++ [PdfElem.spacer 1 12])

/-- The platypus `story` of the PDF branch, or the first uncaught error raised
while building it. -/
def a2_pdf_story (ar : AR) : Except String (List PdfElem) := do
  let s1 ← a2PdfMetadata ar
  let s2 ← a2PdfTables ar
  let s3 ← a2PdfMeasures ar
  let s4 ← a2PdfRelationships ar
  let s5 ← a2PdfPowerQuery ar
  let s6 ← a2PdfMParameters ar
  let s7 ← a2PdfDaxTables ar
  pure ([PdfElem.par "PBIX File Documentation" "h1", PdfElem.spacer 1 12] ++
    s1 ++ s2 ++ s3 ++ s4 ++ s5 ++ s6 ++ s7)

/-- Embedding of the PDF branch of `app2.generate_documentation`.  The external
`doc.build` is a parameter.  Result: `.error e` when a story-building error
propagates out of the function uncaught; `.ok none` when `doc.build` raised and
the `except` at lines 390-392 returned `None` (no partial buffer); `.ok (some
story)` when the built buffer is returned. -/
def a2_generate_pdf (build : List PdfElem → Except String Unit) (ar : AR) :
    Except String (Option (List PdfElem)) := do
  let story ← a2_pdf_story ar
  match build story with
  | .ok _ => pure (some story)
  | .error _ => pure none

/-! ## app2.py: analyze_performance_and_complexity -/

/-- An entry of `performance_insights["complex_measures"]`. -/
structure CMeasure where
  name : String
  expression_length : Nat
deriving DecidableEq, Repr

/-- An entry of `performance_insights["complex_calculated_columns"]`. -/
structure CCol where
  table : String
  column : String
  expression_length : Nat
deriving DecidableEq, Repr

/-- An entry of `performance_insights["large_tables"]`. -/
structure LTable where
  name : String
  row_count : RCount
deriving DecidableEq, Repr

/-- An entry of `performance_insights["tables_with_many_columns"]`. -/
structure MTable where
  name : String
  column_count : Nat
deriving DecidableEq, Repr

/-- The `performance_insights` dict returned by `analyze_performance_and_complexity`. -/
structure PerfInsights where
  complex_measures : List CMeasure
  complex_calculated_columns : List CCol
  many_to_many_without_bridge : List Record
  large_tables : List LTable
  tables_with_many_columns : List MTable
deriving DecidableEq, Repr

/-- Body of the measures loop (lines 424-431 of app2.py): append a finding when
the expression length exceeds `COMPLEX_DAX_THRESHOLD = 100`. -/
def perfMeasureStep (acc : List CMeasure) (p : String × MeasureInfo) : List CMeasure :=
  let expression := p.2.expression
  if expression.length > 100 then acc ++ [⟨p.1, expression.length⟩] else acc

/-- The measures loop of `analyze_performance_and_complexity`. -/
def perfMeasuresLoop (ms : List (String × MeasureInfo)) : List CMeasure :=
  ms.foldl perfMeasureStep []

/-- Body of the calculated-columns loop (lines 438-448 of app2.py): a column is
a calculated column when `col_info.get("expression")` is truthy. -/
def perfColStep (tname : String) (acc : List CCol) (p : String × ColumnInfo) : List CCol :=
  if truthyOpt p.2.expression then
    let expression := p.2.expression.getD ""
    if expression.length > 100 then acc ++ [⟨tname, p.1, expression.length⟩] else acc
  else acc

/-- The calculated-columns loop inside one table. -/
def perfColsLoop (tname : String) (cols : List (String × ColumnInfo)) (acc : List CCol) :
    List CCol :=
  cols.foldl (perfColStep tname) acc

/-- The tables loop (lines 436-463 of app2.py): calculated columns, then the
large-table check (`LARGE_TABLE_ROW_THRESHOLD = 100000`, guarded by
`isinstance(row_count, (int, float))`), then the many-columns check
(`MANY_COLUMNS_THRESHOLD = 50`, guarded by truthiness of `columns`). -/
def perfTableStep (acc : List CCol × List LTable × List MTable) (p : String × TableInfo) :
    List CCol × List LTable × List MTable :=
  let columns := p.2.columns
  let ccs2 := perfColsLoop p.1 columns acc.1
  let lts2 := match p.2.row_count with
    | .num n => if n > 100000 then acc.2.1 ++ [⟨p.1, RCount.num n⟩] else acc.2.1
    | .str _ => acc.2.1
  let mts2 := if !columns.isEmpty && columns.length > 50 then
      acc.2.2 ++ [⟨p.1, columns.length⟩] else acc.2.2
  (ccs2, lts2, mts2)

/-- The tables loop of `analyze_performance_and_complexity`. -/
def perfTablesLoop (ts : List (String × TableInfo)) :
    List CCol × List LTable × List MTable :=
  ts.foldl perfTableStep ([], [], [])

/-- Embedding of `app2.analyze_performance_and_complexity`.  The
many-to-many-without-bridge detection is stubbed out in the source (lines
466-479 are comments plus a dead `relationships` assignment), so that list is
always empty. -/
def analyze_performance_and_complexity (ar : AR) : Except String PerfInsights := do
  let measures ← (arGet ar "measures" (PV.meas [])).itemsMeas
  let complex_measures := perfMeasuresLoop measures
  let tables ← (arGet ar "tables" (PV.tbls [])).itemsTbl
  let (ccs, lts, mts) := perfTablesLoop tables
  let _relationships := arGet ar "relationships" (PV.rels [])
  pure { complex_measures := complex_measures
         complex_calculated_columns := ccs
         many_to_many_without_bridge := []
         large_tables := lts
         tables_with_many_columns := mts }

/-- The claim's phrase "row_count is numeric and exceeds 100000" as a predicate. -/
def isLargeRow : RCount → Bool
  | .num n => n > 100000
  | .str _ => false

/-- Reference definition of the performance analysis, written from the claim's
words: membership in each finding list is characterised by a filter, and the
many-to-many list is always empty. -/
def perfReference (a : AnalysisResults) : PerfInsights where
  complex_measures :=
    (a.measures.filter (fun p => p.2.expression.length > 100)).map
      (fun p => ⟨p.1, p.2.expression.length⟩)
  complex_calculated_columns :=
    a.tables.flatMap (fun t =>
      (t.2.columns.filter (fun c => (c.2.expression.getD "").length > 100)).map
        (fun c => ⟨t.1, c.1, (c.2.expression.getD "").length⟩))
  many_to_many_without_bridge := []
  large_tables :=
    (a.tables.filter (fun t => isLargeRow t.2.row_count)).map (fun t => ⟨t.1, t.2.row_count⟩)
  tables_with_many_columns :=
    (a.tables.filter (fun t => t.2.columns.length > 50)).map
      (fun t => ⟨t.1, t.2.columns.length⟩)

/-! ## Helper definitions used by the claim statements -/

/-- The level-1 headings of a Word document, in order. -/
def h1Headings (els : List DocElem) : List String :=
  els.filterMap (fun e => match e with
    | .heading t 1 => some t
    | _ => none)

/-- The fixed, hard-coded section-heading sequence of
`app2.generate_documentation` (both branches). -/
def a2FixedHeadings : List String :=
  ["Metadata", "Tables", "Measures", "Relationships", "Power Query (M Code)",
   "M Parameters", "DAX Tables"]

/-- Level-1 headings of the Word branch of `app2.generate_documentation` (empty
when the branch raises). -/
def a2WordH1 (ar : AR) : List String :=
  match a2_generate_word ar with
  | .ok els => h1Headings els
  | .error _ => []

/-- The text drawn by a canvas operation, if it is a `drawString`. -/
def PdfOp.textOf : PdfOp → Option String
  | .drawString _ _ t => some t
  | .newPage => none

/-- The `report_data` in which every section is absent. -/
def emptyReportData : ReportData where
  metadata := none
  schema := none
  relationships := none
  power_query := none
  m_parameters := none
  dax_tables := none
  dax_measures := none

/-- The `app3` data in which every section is absent. -/
def emptyA3Data : A3Data where
  model := none
  tables := none
  measures := none
  relationships := none
  cultures := none
  datasources := none
  roles := none
  expressions := none
  annotationEntries := none

/-- A concrete analyzer whose relationships accessor raises while every other
accessor succeeds with data. -/
def c1Model : PBIXModel where
  metadata := .ok [("Author", "Contoso")]
  size := .ok 1024
  power_query := .ok "let Source = Table in Source"
  m_parameters := .ok [[("name", "Param1"), ("value", "10"), ("dataType", "number")]]
  dax_tables := .ok []
  tables := .ok [{ name := "Sales", row_count := RCount.num 42, columns := [] }]
  measures := .ok []
  relationships := .error "ValueError: relationships accessor raised"

/-- A concrete `analysis_results` mapping whose insertion order (relationships
before metadata) differs from the renderer's hard-coded section order. -/
def c4AR : AR :=
  [("relationships", PV.rels [[("name", "R1"), ("from_table", "Sales"), ("to_table", "Dates")]]),
   ("metadata", PV.dictS [("Author", "Contoso")])]

/-- The headings the report sections of `c4AR` would produce in insertion order. -/
def c4InsertionHeadings : List String :=
  ["Relationships", "Metadata"]

/-- A DAX expression 150 characters long — when drawn by `draw_paragraph` it
exceeds the 100-character truncation threshold. -/
def longExpr : String :=
  "CALCULATE(SUMX(FILTER(ALL(Sales), Sales(Amount) > 0 && Sales(Region) = SELECTEDVALUE(Region(Name))), Sales(Amount) * Sales(Quantity))) + SUM(Extra(A))"

/-- A report whose only content is one DAX measure with the long expression. -/
def c5ReportData : ReportData where
  metadata := none
  schema := none
  relationships := none
  power_query := none
  m_parameters := none
  dax_tables := none
  dax_measures := some [[("name", "Total Sales"), ("expression", longExpr)]]

/-- An `analysis_results` mapping whose metadata value is a truthy non-dict, so
the metadata section's `.items()` call raises while every later section would
render fine. -/
def c6AR : AR :=
  [("metadata", PV.str "unexpected scalar"),
   ("tables", PV.tbls [("Sales", { name := "Sales", row_count := RCount.num 10, columns := [] })])]

/-- A `doc.build` that succeeds. -/
def okBuild : List PdfElem → Except String Unit := fun _ => .ok ()

/-- A `doc.build` that raises (a ReportLab layout error). -/
def failBuild : List PdfElem → Except String Unit := fun _ => .error "LayoutError"

/-- A stand-in for the external pandas markdown rendering in `app3`. -/
def mdStub : List Record → String := fun _ => ""

/-- Whether an `Except` computation succeeded. -/
def exOk : Except String α → Bool
  | .ok _ => true
  | .error _ => false

/-! # Theorems -/

/-! ## Shared helper lemmas -/

theorem h1Headings_append (a b : List DocElem) :
    h1Headings (a ++ b) = h1Headings a ++ h1Headings b := by
  simp [h1Headings]

theorem h1Headings_flatMap {α : Type} (f : α → List DocElem) (l : List α)
    (h : ∀ x, h1Headings (f x) = []) : h1Headings (l.flatMap f) = [] := by
  induction l with
  | nil => simp [h1Headings]
  | cons a t ih => simp [List.flatMap_cons, h1Headings_append, h, ih]

theorem h1Headings_map_par {α : Type} (f : α → String) (l : List α) :
    h1Headings (l.map (fun x => DocElem.par (f x))) = [] := by
  induction l with
  | nil => simp [h1Headings]
  | cons a t ih => simp [h1Headings]

theorem h1Headings_cons_h1 (t : String) (l : List DocElem) :
    h1Headings (DocElem.heading t 1 :: l) = t :: h1Headings l := by
  simp [h1Headings]

theorem h1Headings_cons_par (s : String) (l : List DocElem) :
    h1Headings (DocElem.par s :: l) = h1Headings l := by
  simp [h1Headings]

/-! ## C3: field resolution -/

/-- Claim C3 (counterexample): the renderer does not probe an ordered list of
key spellings.  A relationship record carrying the logical field only under the
legacy spelling `"From Table"` renders a different row from one carrying
`"from_table"`: its from-table cell is the sentinel `"N/A"`, not `"Sales"`. -/
theorem c3_counterexample :
    relRow [("From Table", "Sales")] ≠ relRow [("from_table", "Sales")] ∧
    (relRow [("From Table", "Sales")])[1]? = some "N/A" ∧
    (relRow [("from_table", "Sales")])[1]? = some "Sales" := by
  refine ⟨by decide, rfl, rfl⟩

/-- Claim C3 (amended): field resolution probes exactly one literal key per
logical field (`rel.get('from_table', 'N/A')`), with no fallback chain: a record
that carries the field only under the legacy spelling `"From Table"` resolves
the from-table cell to the sentinel `"N/A"`. -/
theorem c3_single_key_resolution (rel : Record) (v : String)
    (h1 : rlookup rel "from_table" = none) (_h2 : rlookup rel "From Table" = some v) :
    (relRow rel)[1]? = some "N/A" := by
  simp [relRow, dget, h1]

/-- Witness for `c3_single_key_resolution` at the record carrying only the
legacy spelling. -/
theorem c3_witness :
    rlookup [("From Table", "Sales")] "from_table" = none ∧
    (relRow [("From Table", "Sales")])[1]? = some "N/A" :=
  ⟨rfl, c3_single_key_resolution [("From Table", "Sales")] "Sales" rfl rfl⟩

/-! ## C1: per-section isolation of extraction -/

/-- Claim C1 (counterexample): a single failing section accessor aborts the
whole extraction.  For `c1Model` — whose metadata, tables and every other
accessor succeed with data while only the relationships accessor raises —
`analyze_pbix_file` returns `None` rather than a report with the other sections
populated and relationships recorded as empty. -/
theorem c1_counterexample :
    analyze_pbix_file c1Model = none ∧
    c1Model.metadata = Except.ok [("Author", "Contoso")] ∧
    exOk c1Model.tables = true ∧
    exOk c1Model.relationships = false := by
  refine ⟨rfl, rfl, rfl, rfl⟩

/-- Claim C1 (amended): extraction is all-or-nothing — `analyze_pbix_file`
wraps every accessor call in one `try/except` returning `None`, so it returns a
report exactly when every section accessor succeeds; any single accessor error
(for example from the relationships accessor) yields a whole-report failure.
(The only per-attribute tolerance is the `hasattr` probe for
`column.expression`, modelled inside `mkColumnInfo`.) -/
theorem c1_extraction_all_or_nothing (m : PBIXModel) :
    (analyze_pbix_file m).isSome = true ↔
      (exOk m.metadata = true ∧ exOk m.size = true ∧ exOk m.power_query = true ∧
       exOk m.m_parameters = true ∧ exOk m.dax_tables = true ∧ exOk m.tables = true ∧
       exOk m.measures = true ∧ exOk m.relationships = true) := by
  rcases m with ⟨md, sz, pq, mp, dx, tb, ms, rl⟩
  cases md <;> cases sz <;> cases pq <;> cases mp <;> cases dx <;> cases tb <;>
    cases ms <;> cases rl <;>
    simp [analyze_pbix_file, exOk, Except.toOption, Except.bind, bind]

/-! ## C10: performance analysis vs. its reference definition -/

theorem perfMeasuresFold_eq (ms : List (String × MeasureInfo)) (acc : List CMeasure) :
    ms.foldl perfMeasureStep acc =
      acc ++ (ms.filter (fun p => p.2.expression.length > 100)).map
        (fun p => ⟨p.1, p.2.expression.length⟩) := by
  induction ms generalizing acc with
  | nil => simp
  | cons p t ih =>
    by_cases h : p.2.expression.length > 100 <;>
      simp [perfMeasureStep, h, ih, List.filter_cons]

theorem perfColStep_eq (tname : String) (acc : List CCol) (p : String × ColumnInfo) :
    perfColStep tname acc p =
      acc ++ (if (p.2.expression.getD "").length > 100 then
        [⟨tname, p.1, (p.2.expression.getD "").length⟩] else []) := by
  rcases hx : p.2.expression with _ | e <;>
    simp [perfColStep, truthyOpt, hx]
  by_cases he : e = ""
  · simp [he]
  · by_cases hl : e.length > 100 <;> simp [he, hl]

theorem perfColsLoop_eq (tname : String) (cols : List (String × ColumnInfo))
    (acc : List CCol) :
    perfColsLoop tname cols acc =
      acc ++ (cols.filter (fun c => (c.2.expression.getD "").length > 100)).map
        (fun c => ⟨tname, c.1, (c.2.expression.getD "").length⟩) := by
  induction cols generalizing acc with
  | nil => simp [perfColsLoop]
  | cons c t ih =>
    simp only [perfColsLoop, List.foldl_cons] at ih ⊢
    rw [ih, perfColStep_eq]
    by_cases h : (c.2.expression.getD "").length > 100 <;>
      simp [h, List.filter_cons]

theorem perfTableStep_eq (acc : List CCol × List LTable × List MTable)
    (t : String × TableInfo) :
    perfTableStep acc t =
      (acc.1 ++ (t.2.columns.filter (fun c => (c.2.expression.getD "").length > 100)).map
          (fun c => ⟨t.1, c.1, (c.2.expression.getD "").length⟩),
       acc.2.1 ++ (if isLargeRow t.2.row_count then [(⟨t.1, t.2.row_count⟩ : LTable)] else []),
       acc.2.2 ++ (if t.2.columns.length > 50 then
          [(⟨t.1, t.2.columns.length⟩ : MTable)] else [])) := by
  simp only [perfTableStep, perfColsLoop_eq]
  refine Prod.ext rfl (Prod.ext ?_ ?_)
  · rcases hrc : t.2.row_count with n | s <;> simp only [isLargeRow, hrc]
    · by_cases h : n > 100000 <;> simp [h]
    · simp
  · by_cases h : t.2.columns.length > 50
    · have hne : t.2.columns.isEmpty = false := by
        rcases hq : t.2.columns with _ | _
        · rw [hq] at h
          simp at h
        · rfl
      simp [h, hne]
    · simp [h]

theorem perfTablesFold_eq (ts : List (String × TableInfo))
    (c0 : List CCol) (l0 : List LTable) (m0 : List MTable) :
    ts.foldl perfTableStep (c0, l0, m0) =
      (c0 ++ ts.flatMap (fun t =>
          (t.2.columns.filter (fun c => (c.2.expression.getD "").length > 100)).map
            (fun c => ⟨t.1, c.1, (c.2.expression.getD "").length⟩)),
       l0 ++ (ts.filter (fun t => isLargeRow t.2.row_count)).map
          (fun t => ⟨t.1, t.2.row_count⟩),
       m0 ++ (ts.filter (fun t => t.2.columns.length > 50)).map
          (fun t => ⟨t.1, t.2.columns.length⟩)) := by
  induction ts generalizing c0 l0 m0 with
  | nil => simp
  | cons t ts ih =>
    rw [List.foldl_cons, perfTableStep_eq, ih]
    refine Prod.ext ?_ (Prod.ext ?_ ?_)
    · simp [List.flatMap_cons]
    · by_cases h : isLargeRow t.2.row_count <;> simp [List.filter_cons, h]
    · by_cases h : t.2.columns.length > 50 <;> simp [List.filter_cons, h]

/-- Claim C10: `analyze_performance_and_complexity`, run on any
`analysis_results` dict that `analyze_pbix_file` can produce, equals the
claim's reference definition: `many_to_many_without_bridge` is always empty,
`complex_measures` holds exactly the measures whose expression length exceeds
100, `complex_calculated_columns` exactly the columns with an expression longer
than 100 characters, `large_tables` exactly the tables whose `row_count` is
numeric and exceeds 100000, and `tables_with_many_columns` exactly the tables
with more than 50 columns. -/
theorem c10_perf_matches_reference (a : AnalysisResults) :
    analyze_performance_and_complexity a.toAR = Except.ok (perfReference a) := by
  have hm : arGet a.toAR "measures" (PV.meas []) = PV.meas a.measures := rfl
  have ht : arGet a.toAR "tables" (PV.tbls []) = PV.tbls a.tables := rfl
  simp [analyze_performance_and_complexity, hm, ht, PV.itemsMeas, PV.itemsTbl,
    bind, Except.bind, pure, Except.pure, perfMeasuresLoop, perfMeasuresFold_eq,
    perfTablesLoop, perfTablesFold_eq, perfReference]

/-! ## C5: PDF pagination -/

theorem np_drawList {α : Type} (f : α → Int → List PdfOp × Int)
    (hf : ∀ a y, PdfOp.newPage ∉ (f a y).1) (l : List α) (y : Int) :
    PdfOp.newPage ∉ (drawList f l y).1 := by
  induction l generalizing y with
  | nil => simp [drawList]
  | cons a t ih => simp [drawList, List.mem_append, hf a y, ih]

theorem np_draw_text (t : String) (x y s : Int) :
    PdfOp.newPage ∉ (draw_text t x y s).1 := by
  simp [draw_text]

theorem np_draw_paragraph (t : String) (x y s : Int) :
    PdfOp.newPage ∉ (draw_paragraph t x y s).1 := by
  simp [draw_paragraph]

theorem np_advPdfMetadata (rd : ReportData) (y : Int) :
    PdfOp.newPage ∉ (advPdfMetadata rd y).1 := by
  unfold advPdfMetadata
  by_cases h : dictTruthy rd.metadata
  · simp only [h, if_true]
    simp only [List.mem_append, not_or]
    exact ⟨np_draw_text _ _ _ _, np_drawList _ (fun a yy => np_draw_paragraph _ _ _ _) _ _⟩
  · simp [h, draw_text, draw_paragraph]

theorem np_advPdfSchemaTable (t : STable) (y : Int) :
    PdfOp.newPage ∉ (advPdfSchemaTable t y).1 := by
  unfold advPdfSchemaTable
  by_cases h : colsTruthy t.columns
  · simp only [h, if_true]
    simp only [List.mem_append, not_or]
    exact ⟨⟨np_draw_text _ _ _ _, np_draw_text _ _ _ _⟩,
      np_drawList _ (fun a yy => np_draw_paragraph _ _ _ _) _ _⟩
  · simp [h, draw_text, draw_paragraph]

theorem np_advPdfSchema (rd : ReportData) (y : Int) :
    PdfOp.newPage ∉ (advPdfSchema rd y).1 := by
  unfold advPdfSchema
  by_cases h : listTruthy rd.schema
  · simp only [h, if_true]
    simp only [List.mem_append, not_or]
    exact ⟨np_draw_text _ _ _ _, np_drawList _ (fun a yy => np_advPdfSchemaTable _ _) _ _⟩
  · simp [h, draw_text, draw_paragraph]

theorem np_advPdfRelationships (rd : ReportData) (y : Int) :
    PdfOp.newPage ∉ (advPdfRelationships rd y).1 := by
  unfold advPdfRelationships
  by_cases h : framePresent rd.relationships
  · simp only [h, if_true]
    simp only [List.mem_append, not_or]
    exact ⟨np_draw_text _ _ _ _, np_drawList _ (fun a yy => np_draw_paragraph _ _ _ _) _ _⟩
  · simp [h, draw_text, draw_paragraph]

theorem np_advPdfNamedExpr (r : Record) (y : Int) :
    PdfOp.newPage ∉ (advPdfNamedExpr r y).1 := by
  unfold advPdfNamedExpr
  by_cases h : truthyOpt (rlookup r "expression")
  · simp only [h, if_true]
    simp only [List.mem_append, not_or]
    exact ⟨⟨np_draw_paragraph _ _ _ _, np_draw_text _ _ _ _⟩, np_draw_paragraph _ _ _ _⟩
  · simp [h, draw_paragraph]

theorem np_advPdfPowerQuery (rd : ReportData) (y : Int) :
    PdfOp.newPage ∉ (advPdfPowerQuery rd y).1 := by
  unfold advPdfPowerQuery
  by_cases h : framePresent rd.power_query
  · simp only [h, if_true]
    simp only [List.mem_append, not_or]
    exact ⟨np_draw_text _ _ _ _, np_drawList _ (fun a yy => np_advPdfNamedExpr _ _) _ _⟩
  · simp [h, draw_text, draw_paragraph]

theorem np_advPdfMParameters (rd : ReportData) (y : Int) :
    PdfOp.newPage ∉ (advPdfMParameters rd y).1 := by
  unfold advPdfMParameters
  by_cases h : framePresent rd.m_parameters
  · simp only [h, if_true]
    simp only [List.mem_append, not_or]
    exact ⟨np_draw_text _ _ _ _, np_drawList _ (fun a yy => np_draw_paragraph _ _ _ _) _ _⟩
  · simp [h, draw_text, draw_paragraph]

theorem np_advPdfDaxTables (rd : ReportData) (y : Int) :
    PdfOp.newPage ∉ (advPdfDaxTables rd y).1 := by
  unfold advPdfDaxTables
  by_cases h : framePresent rd.dax_tables
  · simp only [h, if_true]
    simp only [List.mem_append, not_or]
    exact ⟨np_draw_text _ _ _ _, np_drawList _ (fun a yy => np_advPdfNamedExpr _ _) _ _⟩
  · simp [h, draw_text, draw_paragraph]

theorem np_advPdfDaxMeasures (rd : ReportData) (y : Int) :
    PdfOp.newPage ∉ (advPdfDaxMeasures rd y).1 := by
  unfold advPdfDaxMeasures
  by_cases h : framePresent rd.dax_measures
  · simp only [h, if_true]
    simp only [List.mem_append, not_or]
    exact ⟨np_draw_text _ _ _ _, np_drawList _ (fun a yy => np_advPdfNamedExpr _ _) _ _⟩
  · simp [h, draw_text, draw_paragraph]

/-- Claim C5 (amended): `app_adv.generate_pdf_doc` never inserts a page break —
the vertical cursor only ever decreases and no code path emits `showPage` —
and `draw_paragraph` (the only routine that renders long text fields) draws the
truncation `text[:100] + "..."`, so a long expression is cut to 103 characters,
not paginated in full. -/
theorem c5_no_page_breaks (rd : ReportData) :
    PdfOp.newPage ∉ generate_pdf_doc rd ∧
    ∀ t x y s, (draw_paragraph t x y s).1 = [PdfOp.drawString x y (pdfTrunc t)] := by
  constructor
  · unfold generate_pdf_doc
    intro hmem
    rcases List.mem_cons.mp hmem with h | h
    · simp at h
    rcases List.mem_append.mp h with h | h
    · rcases List.mem_append.mp h with h | h
      · rcases List.mem_append.mp h with h | h
        · rcases List.mem_append.mp h with h | h
          · rcases List.mem_append.mp h with h | h
            · rcases List.mem_append.mp h with h | h
              · exact np_advPdfMetadata _ _ h
              · exact np_advPdfSchema _ _ h
            · exact np_advPdfRelationships _ _ h
          · exact np_advPdfPowerQuery _ _ h
        · exact np_advPdfMParameters _ _ h
      · exact np_advPdfDaxTables _ _ h
    · exact np_advPdfDaxMeasures _ _ h
  · intro t x y s
    rfl

/-- Claim C5 (counterexample): a 150-character DAX measure expression is not
rendered in full by `app_adv.generate_pdf_doc` — the operation list contains the
string truncated to its first 100 characters plus `"..."`, contains no
operation drawing the full text, and contains no page break. -/
theorem c5_counterexample :
    longExpr.length > 100 ∧
    (generate_pdf_doc c5ReportData).any
      (fun op => op.textOf == some (pdfTrunc longExpr)) = true ∧
    pdfTrunc longExpr ≠ longExpr ∧
    (generate_pdf_doc c5ReportData).all (fun op => op.textOf != some longExpr) = true ∧
    PdfOp.newPage ∉ generate_pdf_doc c5ReportData := by
  set_option maxRecDepth 4096 in
  refine ⟨by decide, rfl, by decide, rfl, by decide⟩

/-! ## C6: rendering error containment -/

/-- Claim C6 (counterexample): there is no per-section error recovery in
`app2.generate_documentation`.  On `c6AR` — whose metadata value makes the
metadata section's `.items()` raise while the tables section alone would render
fine — the PDF branch propagates the error and yields no document at all,
instead of an error-placeholder metadata section followed by the remaining
sections. -/
theorem c6_counterexample :
    a2_generate_pdf okBuild c6AR =
      Except.error "AttributeError: object has no attribute items" ∧
    exOk (a2PdfTables c6AR) = true := by
  exact ⟨rfl, rfl⟩

/-- Claim C6 (amended): `app2.generate_documentation` has no per-section error
recovery: an error raised while rendering any section propagates out of the
function with no document produced; the only caught failure is the final
`doc.build` serialization step (lines 386-392), whose `except` returns `None` —
no partial buffer — while a successful build returns the whole story. -/
theorem c6_error_containment (ar : AR) (build : List PdfElem → Except String Unit) :
    (∀ e, a2_pdf_story ar = Except.error e → a2_generate_pdf build ar = Except.error e) ∧
    (∀ st, a2_pdf_story ar = Except.ok st →
      (∀ e, build st = Except.error e → a2_generate_pdf build ar = Except.ok none) ∧
      (build st = Except.ok () → a2_generate_pdf build ar = Except.ok (some st))) := by
  constructor
  · intro e h
    simp [a2_generate_pdf, h, bind, Except.bind]
  · intro st h
    constructor
    · intro e hb
      simp [a2_generate_pdf, h, hb, bind, Except.bind, pure, Except.pure]
    · intro hb
      simp [a2_generate_pdf, h, hb, bind, Except.bind, pure, Except.pure]

/-- Witness for `c6_error_containment`: the section error of `c6AR` propagates
regardless of the build, and on the empty report a failing build yields `None`
while a successful build yields the document. -/
theorem c6_witness :
    a2_generate_pdf okBuild c6AR =
      Except.error "AttributeError: object has no attribute items" ∧
    a2_generate_pdf failBuild [] = Except.ok none ∧
    exOk (a2_generate_pdf okBuild []) = true := by
  have hst : a2_pdf_story ([] : AR) =
      Except.ok ((a2_pdf_story ([] : AR)).toOption.getD []) := by rfl
  refine ⟨(c6_error_containment c6AR okBuild).1
    "AttributeError: object has no attribute items" (by rfl), ?_, ?_⟩
  · exact ((c6_error_containment [] failBuild).2 _ hst).1 "LayoutError" rfl
  · rw [((c6_error_containment [] okBuild).2 _ hst).2 rfl]
    rfl

/-! ## C4: section order -/

theorem h1_a2WordTable (n : String) (ti : TableInfo) :
    h1Headings (a2WordTable n ti) = [] := by
  unfold a2WordTable
  by_cases h : ti.columns.isEmpty <;> simp [h, h1Headings]

theorem h1_a2WordMeasure (n : String) (mi : MeasureInfo) :
    h1Headings (a2WordMeasure n mi) = [] := by
  simp [a2WordMeasure, h1Headings]

theorem h1_a2WordMetadata (ar : AR) (l : List DocElem)
    (h : a2WordMetadata ar = Except.ok l) : h1Headings l = ["Metadata"] := by
  simp only [a2WordMetadata] at h
  by_cases ht : (arGet ar "metadata" (PV.dictS [])).truthy
  · rw [if_pos ht] at h
    cases hi : (arGet ar "metadata" (PV.dictS [])).itemsS with
    | error e => rw [hi] at h; simp [bind, Except.bind] at h
    | ok kvs =>
      rw [hi] at h
      simp only [bind, Except.bind, pure, Except.pure, Except.ok.injEq] at h
      subst h
      simp [h1Headings, h1Headings_map_par]
  · rw [if_neg ht] at h
    simp only [pure, Except.pure, Except.ok.injEq] at h
    subst h
    simp [h1Headings]

theorem h1_a2WordTables (ar : AR) (l : List DocElem)
    (h : a2WordTables ar = Except.ok l) : h1Headings l = ["Tables"] := by
  simp only [a2WordTables] at h
  by_cases ht : (arGet ar "tables" (PV.tbls [])).truthy
  · rw [if_pos ht] at h
    cases hi : (arGet ar "tables" (PV.tbls [])).itemsTbl with
    | error e => rw [hi] at h; simp [bind, Except.bind] at h
    | ok ts =>
      rw [hi] at h
      simp only [bind, Except.bind, pure, Except.pure, Except.ok.injEq] at h
      subst h
      simp only [h1Headings_cons_h1, h1Headings_cons_par]
      rw [h1Headings_flatMap]
      intro p
      exact h1_a2WordTable p.1 p.2
  · rw [if_neg ht] at h
    simp only [pure, Except.pure, Except.ok.injEq] at h
    subst h
    simp [h1Headings]

theorem h1_a2WordMeasures (ar : AR) (l : List DocElem)
    (h : a2WordMeasures ar = Except.ok l) : h1Headings l = ["Measures"] := by
  simp only [a2WordMeasures] at h
  by_cases ht : (arGet ar "measures" (PV.meas [])).truthy
  · rw [if_pos ht] at h
    cases hi : (arGet ar "measures" (PV.meas [])).itemsMeas with
    | error e => rw [hi] at h; simp [bind, Except.bind] at h
    | ok ms =>
      rw [hi] at h
      simp only [bind, Except.bind, pure, Except.pure, Except.ok.injEq] at h
      subst h
      simp only [h1Headings_cons_h1, h1Headings_cons_par]
      rw [h1Headings_flatMap]
      intro p
      exact h1_a2WordMeasure p.1 p.2
  · rw [if_neg ht] at h
    simp only [pure, Except.pure, Except.ok.injEq] at h
    subst h
    simp [h1Headings]

theorem h1_a2WordRelationships (ar : AR) (l : List DocElem)
    (h : a2WordRelationships ar = Except.ok l) : h1Headings l = ["Relationships"] := by
  simp only [a2WordRelationships] at h
  by_cases ht : (arGet ar "relationships" (PV.rels [])).truthy
  · rw [if_pos ht] at h
    cases hi : (arGet ar "relationships" (PV.rels [])).iterRels with
    | error e => rw [hi] at h; simp [bind, Except.bind] at h
    | ok rs =>
      rw [hi] at h
      simp only [bind, Except.bind, pure, Except.pure, Except.ok.injEq] at h
      subst h
      split <;> simp [h1Headings]
  · rw [if_neg ht] at h
    simp only [pure, Except.pure, Except.ok.injEq] at h
    subst h
    simp [h1Headings]

theorem h1_a2WordPowerQuery (ar : AR) (l : List DocElem)
    (h : a2WordPowerQuery ar = Except.ok l) : h1Headings l = ["Power Query (M Code)"] := by
  simp only [a2WordPowerQuery] at h
  by_cases ht : (arGet ar "power_query" (PV.str "No M code found.")).truthy
  · rw [if_pos ht] at h
    cases hi : (arGet ar "power_query" (PV.str "No M code found.")).asStr with
    | error e => rw [hi] at h; simp [bind, Except.bind] at h
    | ok s =>
      rw [hi] at h
      simp only [bind, Except.bind] at h
      split at h <;>
        (simp only [pure, Except.pure, Except.ok.injEq] at h; subst h; simp [h1Headings])
  · rw [if_neg ht] at h
    simp only [pure, Except.pure, Except.ok.injEq] at h
    subst h
    simp [h1Headings]

theorem h1_a2WordMParameters (ar : AR) (l : List DocElem)
    (h : a2WordMParameters ar = Except.ok l) : h1Headings l = ["M Parameters"] := by
  simp only [a2WordMParameters] at h
  by_cases ht : (arGet ar "m_parameters" (PV.params [])).truthy
  · rw [if_pos ht] at h
    cases hi : (arGet ar "m_parameters" (PV.params [])).iterParams with
    | error e => rw [hi] at h; simp [bind, Except.bind] at h
    | ok ps =>
      rw [hi] at h
      simp only [bind, Except.bind, pure, Except.pure, Except.ok.injEq] at h
      subst h
      simp [h1Headings, h1Headings_map_par]
  · rw [if_neg ht] at h
    simp only [pure, Except.pure, Except.ok.injEq] at h
    subst h
    simp [h1Headings]

theorem h1_a2WordDaxTables (ar : AR) (l : List DocElem)
    (h : a2WordDaxTables ar = Except.ok l) : h1Headings l = ["DAX Tables"] := by
  simp only [a2WordDaxTables] at h
  by_cases ht : (arGet ar "dax_tables" (PV.dax [])).truthy
  · rw [if_pos ht] at h
    cases hi : (arGet ar "dax_tables" (PV.dax [])).itemsDax with
    | error e => rw [hi] at h; simp [bind, Except.bind] at h
    | ok ds =>
      rw [hi] at h
      simp only [bind, Except.bind, pure, Except.pure, Except.ok.injEq] at h
      subst h
      simp only [h1Headings_cons_h1, h1Headings_cons_par]
      rw [h1Headings_flatMap]
      intro p
      simp [h1Headings]
  · rw [if_neg ht] at h
    simp only [pure, Except.pure, Except.ok.injEq] at h
    subst h
    simp [h1Headings]

theorem h1Headings_cons_h0 (t : String) (l : List DocElem) :
    h1Headings (DocElem.heading t 0 :: l) = h1Headings l := by
  simp [h1Headings]

theorem h1Headings_cons_h2 (t : String) (l : List DocElem) :
    h1Headings (DocElem.heading t 2 :: l) = h1Headings l := by
  simp [h1Headings]

theorem h1_app1RenderSub (s : PSub) : h1Headings (app1RenderSub s) = [] := by
  cases s <;> simp [app1RenderSub, h1Headings]

theorem h1_app1RenderDetail (d : PDetail) : h1Headings (app1RenderDetail d) = [] := by
  cases d with
  | lst items => simp [app1RenderDetail, h1Headings]
  | dct entries =>
    unfold app1RenderDetail
    rw [h1Headings_flatMap]
    intro p
    simp only [h1Headings_cons_h2, h1_app1RenderSub]
  | other s => simp [app1RenderDetail, h1Headings]

theorem h1_app1_sections (l : List (String × PDetail)) :
    h1Headings (l.flatMap (fun p =>
      DocElem.heading (sectionHeadingText p.1) 1 :: app1RenderDetail p.2)) =
    l.map (fun p => sectionHeadingText p.1) := by
  induction l with
  | nil => simp [h1Headings]
  | cons p t ih =>
    rw [List.flatMap_cons, h1Headings_append, h1Headings_cons_h1, h1_app1RenderDetail, ih]
    rfl

theorem h1_create_word_documentation (info : List (String × PDetail)) :
    h1Headings (create_word_documentation info) =
      info.map (fun p => sectionHeadingText p.1) := by
  unfold create_word_documentation
  rw [h1Headings_append, h1Headings_cons_h0, h1_app1_sections]
  simp [h1Headings]

/-- Claim C4 (amended): heading order.  In `app.create_word_documentation` the
level-1 heading sequence equals the insertion order of the report's sections
(titleised).  In `app2.generate_documentation` (Word branch) the heading
sequence is the hard-coded list Metadata, Tables, Measures, Relationships,
Power Query (M Code), M Parameters, DAX Tables — independent of the report
mapping's insertion order, with every heading emitted even for absent
sections. -/
theorem c4_heading_order :
    (∀ info : List (String × PDetail),
      h1Headings (create_word_documentation info) =
        info.map (fun p => sectionHeadingText p.1)) ∧
    (∀ (ar : AR) (els : List DocElem),
      a2_generate_word ar = Except.ok els → h1Headings els = a2FixedHeadings) := by
  constructor
  · exact h1_create_word_documentation
  · intro ar els h
    simp only [a2_generate_word, bind, Except.bind] at h
    cases h1 : a2WordMetadata ar with
    | error e => rw [h1] at h; cases h
    | ok s1 =>
    rw [h1] at h
    cases h2 : a2WordTables ar with
    | error e => rw [h2] at h; cases h
    | ok s2 =>
    rw [h2] at h
    cases h3 : a2WordMeasures ar with
    | error e => rw [h3] at h; cases h
    | ok s3 =>
    rw [h3] at h
    cases h4 : a2WordRelationships ar with
    | error e => rw [h4] at h; cases h
    | ok s4 =>
    rw [h4] at h
    cases h5 : a2WordPowerQuery ar with
    | error e => rw [h5] at h; cases h
    | ok s5 =>
    rw [h5] at h
    cases h6 : a2WordMParameters ar with
    | error e => rw [h6] at h; cases h
    | ok s6 =>
    rw [h6] at h
    cases h7 : a2WordDaxTables ar with
    | error e => rw [h7] at h; cases h
    | ok s7 =>
    rw [h7] at h
    simp only [pure, Except.pure, Except.ok.injEq] at h
    subst h
    rw [h1Headings_cons_h0]
    rw [show s1 ++ s2 ++ s3 ++ s4 ++ s5 ++ s6 ++ s7 =
      s1 ++ (s2 ++ (s3 ++ (s4 ++ (s5 ++ (s6 ++ s7))))) by simp [List.append_assoc]]
    rw [h1Headings_append, h1Headings_append, h1Headings_append, h1Headings_append,
      h1Headings_append, h1Headings_append]
    rw [h1_a2WordMetadata ar s1 h1, h1_a2WordTables ar s2 h2, h1_a2WordMeasures ar s3 h3,
      h1_a2WordRelationships ar s4 h4, h1_a2WordPowerQuery ar s5 h5,
      h1_a2WordMParameters ar s6 h6, h1_a2WordDaxTables ar s7 h7]
    rfl

/-- Claim C4 (counterexample): for the report mapping `c4AR` — inserted in the
order relationships, metadata — the Word renderer of
`app2.generate_documentation` emits the fixed heading sequence, not the
insertion-order sequence, so the output heading order does not equal the
report's insertion order. -/
theorem c4_counterexample :
    a2WordH1 c4AR = a2FixedHeadings ∧ a2WordH1 c4AR ≠ c4InsertionHeadings := by
  exact ⟨by rfl, by decide⟩

/-- Witness for `c4_heading_order`: a one-section report in `app.py`'s
renderer, and the empty report mapping in `app2`'s renderer. -/
theorem c4_witness :
    h1Headings (create_word_documentation [("data_model", PDetail.lst ["Sales"])]) =
      ["Data Model"] ∧
    a2WordH1 [] = a2FixedHeadings := by
  constructor
  · rw [c4_heading_order.1 [("data_model", PDetail.lst ["Sales"])]]
    rfl
  · have hok : a2_generate_word ([] : AR) =
        Except.ok ((a2_generate_word ([] : AR)).toOption.getD []) := by rfl
    have h := c4_heading_order.2 [] _ hok
    unfold a2WordH1
    rw [hok]
    exact h

/-! ## C2: placeholders for empty sections -/

theorem memh_advMetadata (rd : ReportData) :
    DocElem.heading "Metadata" 1 ∈ generate_word_doc rd := by
  unfold generate_word_doc
  refine List.mem_cons_of_mem _ ?_
  refine List.mem_append_left _ ?_
  refine List.mem_append_left _ ?_
  refine List.mem_append_left _ ?_
  refine List.mem_append_left _ ?_
  refine List.mem_append_left _ ?_
  refine List.mem_append_left _ ?_
  exact List.mem_cons_self _ _

theorem memp_advMetadata (rd : ReportData) (h : dictTruthy rd.metadata = false) :
    DocElem.par "No metadata available." ∈ generate_word_doc rd := by
  unfold generate_word_doc
  refine List.mem_cons_of_mem _ ?_
  refine List.mem_append_left _ ?_
  refine List.mem_append_left _ ?_
  refine List.mem_append_left _ ?_
  refine List.mem_append_left _ ?_
  refine List.mem_append_left _ ?_
  refine List.mem_append_left _ ?_
  unfold advWordMetadata
  rw [if_neg (by simp [h])]
  simp

theorem memh_advSchema (rd : ReportData) :
    DocElem.heading "Schema" 1 ∈ generate_word_doc rd := by
  unfold generate_word_doc
  refine List.mem_cons_of_mem _ ?_
  refine List.mem_append_left _ ?_
  refine List.mem_append_left _ ?_
  refine List.mem_append_left _ ?_
  refine List.mem_append_left _ ?_
  refine List.mem_append_left _ ?_
  refine List.mem_append_right _ ?_
  exact List.mem_cons_self _ _

theorem memp_advSchema (rd : ReportData) (h : listTruthy rd.schema = false) :
    DocElem.par "No schema information available." ∈ generate_word_doc rd := by
  unfold generate_word_doc
  refine List.mem_cons_of_mem _ ?_
  refine List.mem_append_left _ ?_
  refine List.mem_append_left _ ?_
  refine List.mem_append_left _ ?_
  refine List.mem_append_left _ ?_
  refine List.mem_append_left _ ?_
  refine List.mem_append_right _ ?_
  unfold advWordSchema
  rw [if_neg (by simp [h])]
  simp

theorem memh_advRelationships (rd : ReportData) :
    DocElem.heading "Relationships" 1 ∈ generate_word_doc rd := by
  unfold generate_word_doc
  refine List.mem_cons_of_mem _ ?_
  refine List.mem_append_left _ ?_
  refine List.mem_append_left _ ?_
  refine List.mem_append_left _ ?_
  refine List.mem_append_left _ ?_
  refine List.mem_append_right _ ?_
  exact List.mem_cons_self _ _

theorem memp_advRelationships (rd : ReportData) (h : framePresent rd.relationships = false) :
    DocElem.par "No relationships available." ∈ generate_word_doc rd := by
  unfold generate_word_doc
  refine List.mem_cons_of_mem _ ?_
  refine List.mem_append_left _ ?_
  refine List.mem_append_left _ ?_
  refine List.mem_append_left _ ?_
  refine List.mem_append_left _ ?_
  refine List.mem_append_right _ ?_
  unfold advWordRelationships
  rw [if_neg (by simp [h])]
  simp

theorem memh_advPowerQuery (rd : ReportData) :
    DocElem.heading "Power Query Code" 1 ∈ generate_word_doc rd := by
  unfold generate_word_doc
  refine List.mem_cons_of_mem _ ?_
  refine List.mem_append_left _ ?_
  refine List.mem_append_left _ ?_
  refine List.mem_append_left _ ?_
  refine List.mem_append_right _ ?_
  exact List.mem_cons_self _ _

theorem memp_advPowerQuery (rd : ReportData) (h : framePresent rd.power_query = false) :
    DocElem.par "No Power Query code available." ∈ generate_word_doc rd := by
  unfold generate_word_doc
  refine List.mem_cons_of_mem _ ?_
  refine List.mem_append_left _ ?_
  refine List.mem_append_left _ ?_
  refine List.mem_append_left _ ?_
  refine List.mem_append_right _ ?_
  unfold advWordPowerQuery
  rw [if_neg (by simp [h])]
  simp

theorem memh_advMParameters (rd : ReportData) :
    DocElem.heading "M Parameters" 1 ∈ generate_word_doc rd := by
  unfold generate_word_doc
  refine List.mem_cons_of_mem _ ?_
  refine List.mem_append_left _ ?_
  refine List.mem_append_left _ ?_
  refine List.mem_append_right _ ?_
  exact List.mem_cons_self _ _

theorem memp_advMParameters (rd : ReportData) (h : framePresent rd.m_parameters = false) :
    DocElem.par "No M parameters available." ∈ generate_word_doc rd := by
  unfold generate_word_doc
  refine List.mem_cons_of_mem _ ?_
  refine List.mem_append_left _ ?_
  refine List.mem_append_left _ ?_
  refine List.mem_append_right _ ?_
  unfold advWordMParameters
  rw [if_neg (by simp [h])]
  simp

theorem memh_advDaxTables (rd : ReportData) :
    DocElem.heading "DAX Tables" 1 ∈ generate_word_doc rd := by
  unfold generate_word_doc
  refine List.mem_cons_of_mem _ ?_
  refine List.mem_append_left _ ?_
  refine List.mem_append_right _ ?_
  exact List.mem_cons_self _ _

theorem memp_advDaxTables (rd : ReportData) (h : framePresent rd.dax_tables = false) :
    DocElem.par "No DAX tables available." ∈ generate_word_doc rd := by
  unfold generate_word_doc
  refine List.mem_cons_of_mem _ ?_
  refine List.mem_append_left _ ?_
  refine List.mem_append_right _ ?_
  unfold advWordDaxTables
  rw [if_neg (by simp [h])]
  simp

theorem memh_advDaxMeasures (rd : ReportData) :
    DocElem.heading "DAX Measures" 1 ∈ generate_word_doc rd := by
  unfold generate_word_doc
  refine List.mem_cons_of_mem _ ?_
  refine List.mem_append_right _ ?_
  exact List.mem_cons_self _ _

theorem memp_advDaxMeasures (rd : ReportData) (h : framePresent rd.dax_measures = false) :
    DocElem.par "No DAX measures available." ∈ generate_word_doc rd := by
  unfold generate_word_doc
  refine List.mem_cons_of_mem _ ?_
  refine List.mem_append_right _ ?_
  unfold advWordDaxMeasures
  rw [if_neg (by simp [h])]
  simp

theorem memp_pdfMetadata (rd : ReportData) (h : dictTruthy rd.metadata = false) :
    PdfOp.drawString 100 673 "No metadata available." ∈ generate_pdf_doc rd := by
  unfold generate_pdf_doc
  refine List.mem_cons_of_mem _ ?_
  refine List.mem_append_left _ ?_
  refine List.mem_append_left _ ?_
  refine List.mem_append_left _ ?_
  refine List.mem_append_left _ ?_
  refine List.mem_append_left _ ?_
  refine List.mem_append_left _ ?_
  unfold advPdfMetadata
  rw [if_neg (by simp [h])]
  simp only [draw_text, draw_paragraph, pdfTrunc]
  rw [if_neg (by decide)]
  simp

/-- Claim C2 (amended): placeholder behaviour is split across the two apps.  In
`app_adv.generate_word_doc` every section heading is always emitted and an
empty/absent section renders its fixed "No <section> available." placeholder
(likewise in `app_adv.generate_pdf_doc`, shown here for the metadata section);
rendering is total, so it never raises on an empty section.  In
`app3.generate_word_doc`, by contrast, an absent/empty section is omitted
entirely — on data with every section absent the output is only the title, with
no heading and no placeholder. -/
theorem c2_placeholder_behavior (rd : ReportData) (md : List Record → String) :
    (DocElem.heading "Metadata" 1 ∈ generate_word_doc rd) ∧
    (dictTruthy rd.metadata = false →
      DocElem.par "No metadata available." ∈ generate_word_doc rd) ∧
    (DocElem.heading "Schema" 1 ∈ generate_word_doc rd) ∧
    (listTruthy rd.schema = false →
      DocElem.par "No schema information available." ∈ generate_word_doc rd) ∧
    (DocElem.heading "Relationships" 1 ∈ generate_word_doc rd) ∧
    (framePresent rd.relationships = false →
      DocElem.par "No relationships available." ∈ generate_word_doc rd) ∧
    (DocElem.heading "Power Query Code" 1 ∈ generate_word_doc rd) ∧
    (framePresent rd.power_query = false →
      DocElem.par "No Power Query code available." ∈ generate_word_doc rd) ∧
    (DocElem.heading "M Parameters" 1 ∈ generate_word_doc rd) ∧
    (framePresent rd.m_parameters = false →
      DocElem.par "No M parameters available." ∈ generate_word_doc rd) ∧
    (DocElem.heading "DAX Tables" 1 ∈ generate_word_doc rd) ∧
    (framePresent rd.dax_tables = false →
      DocElem.par "No DAX tables available." ∈ generate_word_doc rd) ∧
    (DocElem.heading "DAX Measures" 1 ∈ generate_word_doc rd) ∧
    (framePresent rd.dax_measures = false →
      DocElem.par "No DAX measures available." ∈ generate_word_doc rd) ∧
    (dictTruthy rd.metadata = false →
      PdfOp.drawString 100 673 "No metadata available." ∈ generate_pdf_doc rd) ∧
    a3_generate_word_doc md emptyA3Data = [DocElem.heading "PBIX Documentation" 0] := by
  exact ⟨memh_advMetadata rd, memp_advMetadata rd, memh_advSchema rd, memp_advSchema rd,
    memh_advRelationships rd, memp_advRelationships rd, memh_advPowerQuery rd,
    memp_advPowerQuery rd, memh_advMParameters rd, memp_advMParameters rd,
    memh_advDaxTables rd, memp_advDaxTables rd, memh_advDaxMeasures rd,
    memp_advDaxMeasures rd, memp_pdfMetadata rd, rfl⟩

/-- Claim C2 (counterexample): `app3.generate_word_doc` omits an absent section
instead of emitting it with a placeholder — on data with every section absent
the output is the bare title: the Model Information heading is missing and no
"No ... available." paragraph of any kind appears. -/
theorem c2_counterexample :
    a3_generate_word_doc mdStub emptyA3Data = [DocElem.heading "PBIX Documentation" 0] ∧
    DocElem.heading "Model Information" 1 ∉ a3_generate_word_doc mdStub emptyA3Data ∧
    (a3_generate_word_doc mdStub emptyA3Data).all
      (fun e => e != DocElem.par "No model information available.") = true := by
  exact ⟨rfl, by decide, rfl⟩

/-- Witness for `c2_placeholder_behavior` at the all-empty report. -/
theorem c2_witness :
    dictTruthy emptyReportData.metadata = false ∧
    DocElem.par "No metadata available." ∈ generate_word_doc emptyReportData ∧
    DocElem.par "No DAX measures available." ∈ generate_word_doc emptyReportData ∧
    PdfOp.drawString 100 673 "No metadata available." ∈ generate_pdf_doc emptyReportData := by
  have h := c2_placeholder_behavior emptyReportData mdStub
  exact ⟨rfl, h.2.1 rfl, h.2.2.2.2.2.2.2.2.2.2.2.2.2.1 rfl, h.2.2.2.2.2.2.2.2.2.2.2.2.2.2.1 rfl⟩

/-! ## C8: non-empty output for every report -/

/-- Claim C8: for every report — the all-empty report included — each renderer
returns a non-empty document: the Word renderer's element list starts with the
title heading, the PDF renderer's operation list starts with the title
`drawString`, and the (spec-modelled) Excel renderer emits one worksheet per
section.  No report yields an empty buffer or no buffer: all three renderers
are total functions. -/
theorem c8_nonempty_documents (rd : ReportData) :
    generate_word_doc rd ≠ [] ∧ generate_pdf_doc rd ≠ [] ∧ generate_excel_doc rd ≠ [] := by
  exact ⟨List.cons_ne_nil _ _, List.cons_ne_nil _ _, List.cons_ne_nil _ _⟩

/-! ## C9: renderers do not mutate the report -/

/-- Claim C9: the renderers of `app_adv.py` treat `report_data` as read-only.
Run over the explicit mutable-state model, each renderer returns the
`report_data` state unchanged, and running the Word and PDF renderers in
sequence (as `main` does) leaves the state unchanged with each renderer
producing exactly the output it produces alone on the original report. -/
theorem c9_renderers_frame (rd : ReportData) :
    generate_word_doc_st rd = (generate_word_doc rd, rd) ∧
    generate_pdf_doc_st rd = (generate_pdf_doc rd, rd) ∧
    render_both_st rd = ((generate_word_doc rd, generate_pdf_doc rd), rd) := by
  exact ⟨rfl, rfl, rfl⟩
